import Mathlib

/-!
# LearnCopilot RAG core: a shallow embedding with verified properties

This file models the RAG core of the LearnCopilot backend
(`backend/app/rag/`: `document_ingestion.py`, `vector_store.py`,
`query_router.py`, `llm_manager.py`, `rag_executor.py`) as executable Lean
definitions and proves/refutes properties of the natural-language
specification against them.

Modelling conventions:
* Python numeric values (`float`) are modelled over `ℚ` with exact
  arithmetic; library functions with irrational or opaque results
  (`np.log`, the square root inside `np.linalg.norm`, `hashlib.md5`,
  `hashlib.sha256`) are threaded as explicit function parameters in an
  `ExtFns` bundle, so every theorem quantifies over them.
* Python `dict`s are insertion-ordered association lists; assigning to an
  existing key keeps its position (as in CPython 3.7+).
* Python `set` iteration order is unspecified; where the code iterates a
  set (`list(set(...))` in `VectorStore._get_filtered_candidates`) the
  model takes the enumeration order as an explicit parameter, and where the
  order is irrelevant to every claim (`set(doc.lower().split())` in
  `SimpleEmbedding.fit`) first-occurrence order is used.
* Wall-clock values (`datetime.utcnow`, latency) are parameters; the
  observability metrics updated by `VectorStore.retrieve` (lines 230-233)
  are not modelled as no claim mentions them.
-/

namespace LearnCopilot

/-- Whitespace for Python `str.split()` / `\s` (ASCII part). -/
def isPySpace (c : Char) : Bool :=
  c = ' ' || c = '\t' || c = '\n' || c = '\r' || c = '\x0b' || c = '\x0c'

/-- Helper for `pyWords`: split a character list on whitespace runs,
dropping empty segments (Python `str.split()` with no separator). -/
def pyWordsAux : List Char → List Char → List (List Char)
  | [], cur => if cur.isEmpty then [] else [cur.reverse]
  | c :: rest, cur =>
    if isPySpace c then
      if cur.isEmpty then pyWordsAux rest [] else cur.reverse :: pyWordsAux rest []
    else pyWordsAux rest (c :: cur)

/-- Python `str.split()` (no argument): whitespace-delimited tokens. -/
def pyWords (s : String) : List String :=
  (pyWordsAux s.toList []).map List.asString

/-- Helper for `pyIn`: does `needle` occur as a contiguous run in the
haystack character list? -/
def pyInAux (needle : List Char) : List Char → Bool
  | [] => needle.isEmpty
  | c :: rest => needle.isPrefixOf (c :: rest) || pyInAux needle rest

/-- Python `needle in haystack` on strings (substring containment). -/
def pyIn (needle haystack : String) : Bool :=
  pyInAux needle.toList haystack.toList

/-- Python `str.lower()` (ASCII reading), character by character. -/
def pyLower (s : String) : String :=
  (s.toList.map Char.toLower).asString

/-- Python truthiness of an optional string (`None` and `""` are falsy). -/
def pyTruthy : Option String → Bool
  | none => false
  | some s => !s.isEmpty

/-- Lookup in an insertion-ordered association list (Python `dict.get`). -/
def dictGet {κ α : Type} [DecidableEq κ] (k : κ) : List (κ × α) → Option α
  | [] => none
  | (k', v) :: rest => if k' = k then some v else dictGet k rest

/-- Assignment `d[k] = v` on an insertion-ordered association list: an
existing key keeps its position, a new key is appended (CPython dict). -/
def dictSet {κ α : Type} [DecidableEq κ] (k : κ) (v : α) :
    List (κ × α) → List (κ × α)
  | [] => [(k, v)]
  | (k', v') :: rest =>
    if k' = k then (k', v) :: rest else (k', v') :: dictSet k v rest

/-- First-occurrence deduplication, modelling iteration over a Python set
built from a list (order chosen as first occurrence; no claim depends on
this choice). -/
def uniqAux : List String → List String → List String
  | _, [] => []
  | seen, x :: xs =>
    if x ∈ seen then uniqAux seen xs else x :: uniqAux (x :: seen) xs

/-- External library functions the Python code calls, modelled as explicit
parameters: `md5hex`/`sha256hex` are `hashlib.md5(...).hexdigest()` and
`hashlib.sha256(...).hexdigest()`, `wordHash` is
`int(hashlib.md5(word.encode()).hexdigest(), 16)`, `logQ` is `np.log`
on rationals and `sqrtQ` the square root inside `np.linalg.norm`. -/
structure ExtFns where
  md5hex : String → String
  sha256hex : String → String
  wordHash : String → ℕ
  logQ : ℚ → ℚ
  sqrtQ : ℚ → ℚ

/-! ## Data model (`document_ingestion.py`) -/

/-- `DocumentType(str, Enum)` from `document_ingestion.py`. -/
inductive DocumentType where
  | SYLLABUS | NOTES | LAB_MANUAL | EXAM | OUTCOMES | JOB_DESCRIPTION
  | TEXTBOOK | UNKNOWN
deriving DecidableEq

/-- The `.value` string of each `DocumentType` member. -/
def DocumentType.val : DocumentType → String
  | .SYLLABUS => "syllabus"
  | .NOTES => "notes"
  | .LAB_MANUAL => "lab"
  | .EXAM => "exam"
  | .OUTCOMES => "outcomes"
  | .JOB_DESCRIPTION => "jd"
  | .TEXTBOOK => "textbook"
  | .UNKNOWN => "unknown"

/-- `Difficulty(str, Enum)` from `document_ingestion.py`. -/
inductive Difficulty where
  | INTRO | INTERMEDIATE | ADVANCED
deriving DecidableEq

/-- The `.value` string of each `Difficulty` member. -/
def Difficulty.val : Difficulty → String
  | .INTRO => "intro"
  | .INTERMEDIATE => "intermediate"
  | .ADVANCED => "advanced"

/-- `DocumentChunk` dataclass. -/
structure DocumentChunk where
  chunk_id : String
  content : String
  subject : String
  doc_type : DocumentType
  topic : String
  difficulty : Difficulty
  source_file : String
  page_number : Option ℕ
  chunk_index : ℕ
  timestamp : String
  word_count : ℕ
deriving DecidableEq

/-- `ProcessedDocument` dataclass. -/
structure ProcessedDocument where
  doc_id : String
  filename : String
  doc_type : DocumentType
  subject : String
  total_chunks : ℕ
  total_pages : ℕ
  chunks : List DocumentChunk
  processing_time : ℚ
  timestamp : String

/-! ## Ingestion pipeline (`DocumentIngestionPipeline`) -/

namespace Ingestion

/-- `os.path.basename` (POSIX): the part after the last slash. -/
def pyBasename (s : String) : String :=
  (s.split (· = '/')).getLastD ""

/-- The root part of `os.path.splitext`: drop the extension starting at the
last dot, unless every character before that dot is itself a dot. -/
def splitextRoot (s : String) : String :=
  let cs := s.toList
  match (cs.reverse.findIdx? (· = '.')) with
  | none => s
  | some revIdx =>
    let i := cs.length - 1 - revIdx
    if (cs.take i).any (· ≠ '.') then (cs.take i).asString else s

/-- `re.sub(r'[_-]', ' ', s)`. -/
def underscoreDashToSpace (s : String) : String :=
  (s.toList.map (fun c => if c = '_' || c = '-' then ' ' else c)).asString

/-- Helper for `pyTitle`: Python `str.title()` character scan; the flag
records whether the previous character was cased (a letter). -/
def pyTitleAux : Bool → List Char → List Char
  | _, [] => []
  | prevCased, c :: cs =>
    if c.isAlpha then
      (if prevCased then c.toLower else c.toUpper) :: pyTitleAux true cs
    else c :: pyTitleAux false cs

/-- Python `str.title()`. -/
def pyTitle (s : String) : String :=
  (pyTitleAux false s.toList).asString

/-- Helper for `pyIsTitle`: Python `str.istitle()` scan; arguments are the
previous-character-cased flag, the remaining characters, and whether a
cased character has been seen. -/
def pyIsTitleAux : Bool → List Char → Bool → Bool
  | _, [], seen => seen
  | prevCased, c :: cs, seen =>
    if c.isUpper then (if prevCased then false else pyIsTitleAux true cs true)
    else if c.isLower then (if prevCased then pyIsTitleAux true cs true else false)
    else pyIsTitleAux false cs seen

/-- Python `str.istitle()`. -/
def pyIsTitle (s : String) : Bool :=
  pyIsTitleAux false s.toList false

/-- Python `str.isupper()`: no lowercase cased character and at least one
uppercase one (ASCII reading). -/
def pyIsUpper (s : String) : Bool :=
  s.toList.all (fun c => !c.isLower) && s.toList.any (fun c => c.isUpper)

/-- `DOC_TYPE_KEYWORDS`, in Python dict (insertion) order. -/
def DOC_TYPE_KEYWORDS : List (DocumentType × List String) :=
  [(.SYLLABUS, ["syllabus", "course outline", "course structure",
      "learning objectives", "course schedule", "grading scheme",
      "prerequisites", "course description"]),
   (.NOTES, ["lecture", "notes", "chapter", "unit", "module",
      "introduction to", "overview of", "concepts"]),
   (.LAB_MANUAL, ["lab", "laboratory", "experiment", "practical",
      "procedure", "apparatus", "observation", "aim"]),
   (.EXAM, ["exam", "examination", "question paper", "test",
      "marks", "answer", "time:", "max marks"]),
   (.OUTCOMES, ["learning outcomes", "course outcomes", "program outcomes",
      "competencies", "skills acquired", "objectives"]),
   (.JOB_DESCRIPTION, ["job description", "requirements", "qualifications",
      "responsibilities", "experience required", "skills needed"]),
   (.TEXTBOOK, ["chapter", "section", "theorem", "definition",
      "example", "exercise", "figure", "table"])]

/-- `DIFFICULTY_KEYWORDS`, in Python dict (insertion) order. -/
def DIFFICULTY_KEYWORDS : List (Difficulty × List String) :=
  [(.INTRO, ["introduction", "basic", "fundamental", "overview",
      "beginner", "simple", "elementary", "getting started"]),
   (.INTERMEDIATE, ["intermediate", "moderate", "application",
      "implementation", "analysis", "design", "develop"]),
   (.ADVANCED, ["advanced", "complex", "optimization", "research",
      "thesis", "dissertation", "novel", "state-of-the-art"])]

/-- `max(scores, key=scores.get)` over an insertion-ordered dict: the first
entry attaining the maximal score. -/
def pickMax {α : Type} : List (α × ℕ) → Option (α × ℕ)
  | [] => none
  | x :: xs =>
    match pickMax xs with
    | none => some x
    | some y => if x.2 ≥ y.2 then some x else some y

/-- `DocumentIngestionPipeline._detect_document_type`. -/
def detectDocumentType (text : String) : DocumentType :=
  let textLower := pyLower text
  let scores := DOC_TYPE_KEYWORDS.map
    (fun p => (p.1, (p.2.filter (fun kw => pyIn kw textLower)).length))
  match pickMax scores with
  | some (dt, sc) => if sc > 0 then dt else .UNKNOWN
  | none => .UNKNOWN

/-- `DocumentIngestionPipeline._detect_difficulty`. -/
def detectDifficulty (text : String) : Difficulty :=
  let textLower := pyLower text
  let scores := DIFFICULTY_KEYWORDS.map
    (fun p => (p.1, (p.2.filter (fun kw => pyIn kw textLower)).length))
  match pickMax scores with
  | some (d, sc) => if sc > 0 then d else .INTERMEDIATE
  | none => .INTERMEDIATE

/-- The fixed `domains` list of `_infer_subject`. -/
def domains : List String :=
  ["computer science", "computer networks", "data structures",
   "algorithms", "database", "operating systems", "machine learning",
   "artificial intelligence", "physics", "chemistry", "biology",
   "mathematics", "calculus", "statistics", "economics", "management",
   "engineering", "electronics", "electrical", "mechanical", "civil",
   "medicine", "anatomy", "pharmacology", "law", "history", "psychology"]

/-- `DocumentIngestionPipeline._infer_subject`. -/
def inferSubject (text filename : String) : String :=
  let filenameClean := underscoreDashToSpace (splitextRoot (pyBasename filename))
  let textLower := pyLower text
  let filenameLower := pyLower filenameClean
  match domains.find? (fun d => pyIn d filenameLower) with
  | some d => pyTitle d
  | none =>
    match domains.find? (fun d => pyIn d (textLower.take 5000)) with
    | some d => pyTitle d
    | none => if filenameClean ≠ "" then pyTitle filenameClean else "General"

/-- `DocumentIngestionPipeline._infer_topic`. -/
def inferTopic (chunkText subject : String) : String :=
  let lines := chunkText.split (· = '\n')
  match (lines.take 3).findSome? (fun l =>
      let l := l.trim
      if 5 < l.length && l.length < 100 && (pyIsUpper l || pyIsTitle l)
      then some (l.take 50) else none) with
  | some t => t
  | none =>
    let ws := (pyWords chunkText).take 10
    if !ws.isEmpty then (String.intercalate " " ws).take 50 else subject

/-- `DocumentIngestionPipeline._create_chunk`; `now` models
`datetime.utcnow().isoformat()`. -/
def createChunk (fns : ExtFns) (content filename : String) (dt : DocumentType)
    (subject : String) (pageNum chunkIndex : ℕ) (now : String) :
    DocumentChunk :=
  { chunk_id := (fns.md5hex (filename ++ content.take 100)).take 12 ++ "_"
        ++ toString chunkIndex
    content := content
    subject := subject
    doc_type := dt
    topic := inferTopic content subject
    difficulty := detectDifficulty content
    source_file := pyBasename filename
    page_number := some pageNum
    chunk_index := chunkIndex
    timestamp := now
    word_count := (pyWords content).length }

/-- Helper for `splitParas`: scan characters, tracking the reversed current
segment and the count of pending consecutive newlines. A run of two or more
newlines is a separator (`re.split(r'\n\n+', ...)`). -/
def splitParasAux : List Char → List Char → ℕ → List (List Char)
  | [], cur, pending =>
    if pending ≥ 2 then [cur.reverse, []]
    else [(if pending = 1 then '\n' :: cur else cur).reverse]
  | c :: rest, cur, pending =>
    if c = '\n' then splitParasAux rest cur (pending + 1)
    else if pending ≥ 2 then cur.reverse :: splitParasAux rest [c] 0
    else if pending = 1 then splitParasAux rest (c :: '\n' :: cur) 0
    else splitParasAux rest (c :: cur) 0

/-- `re.split(r'\n\n+', page_text)`. -/
def splitParas (s : String) : List String :=
  (splitParasAux s.toList [] 0).map List.asString

/-- The index sequence `range(0, len, step)` (empty when `step = 0`, where
Python would raise `ValueError`; only `chunk_overlap < chunk_size` is used). -/
def rangeIdx (len step : ℕ) : List ℕ :=
  if step = 0 then [] else (List.range ((len + step - 1) / step)).map (· * step)

/-- The overlapping word windows an oversized paragraph is split into:
`words[i:i+chunk_size]` for `i in range(0, len(words), chunk_size -
chunk_overlap)`. -/
def wordWindows (chunkSize overlap : ℕ) (words : List String) :
    List (List String) :=
  (rangeIdx words.length (chunkSize - overlap)).map
    (fun i => (words.drop i).take chunkSize)

/-- Emit one chunk per word window, with consecutive chunk indices;
returns the chunks and the next free index. -/
def emitWindows (fns : ExtFns) (filename : String) (dt : DocumentType)
    (subject : String) (pageNum : ℕ) (now : String) :
    List (List String) → ℕ → List DocumentChunk × ℕ
  | [], idx => ([], idx)
  | ws :: rest, idx =>
    let r := emitWindows fns filename dt subject pageNum now rest (idx + 1)
    (createChunk fns (String.intercalate " " ws) filename dt subject pageNum
        idx now :: r.1, r.2)

/-- The per-page paragraph accumulation loop of `_create_semantic_chunks`:
`paras` are the remaining paragraphs, `cur`/`curWC` the accumulating chunk
and its word count, `idx` the next chunk index. Returns the emitted chunks
of this page and the next free index. -/
def chunkPage (fns : ExtFns) (chunkSize overlap : ℕ) (filename : String)
    (dt : DocumentType) (subject : String) (pageNum : ℕ) (now : String) :
    List String → List String → ℕ → ℕ → List DocumentChunk × ℕ
  | [], cur, _, idx =>
    if !cur.isEmpty then
      ([createChunk fns (String.intercalate "\n\n" cur) filename dt subject
          pageNum idx now], idx + 1)
    else ([], idx)
  | para :: rest, cur, curWC, idx =>
    let words := pyWords para
    let paraWC := words.length
    if curWC + paraWC ≤ chunkSize then
      chunkPage fns chunkSize overlap filename dt subject pageNum now rest
        (cur ++ [para]) (curWC + paraWC) idx
    else
      let flushed :=
        if !cur.isEmpty then
          ([createChunk fns (String.intercalate "\n\n" cur) filename dt subject
              pageNum idx now], idx + 1)
        else (([] : List DocumentChunk), idx)
      if paraWC > chunkSize then
        let sub := emitWindows fns filename dt subject pageNum now
          (wordWindows chunkSize overlap words) flushed.2
        let tl := chunkPage fns chunkSize overlap filename dt subject pageNum
          now rest [] 0 sub.2
        (flushed.1 ++ sub.1 ++ tl.1, tl.2)
      else
        let tl := chunkPage fns chunkSize overlap filename dt subject pageNum
          now rest [para] paraWC flushed.2
        (flushed.1 ++ tl.1, tl.2)

/-- `DocumentIngestionPipeline._create_semantic_chunks`: pages are numbered
from 1 and the chunk index continues across pages. -/
def createSemanticChunks (fns : ExtFns) (chunkSize overlap : ℕ)
    (filename : String) (dt : DocumentType) (subject : String)
    (now : String) : List String → ℕ → ℕ → List DocumentChunk
  | [], _, _ => []
  | pg :: rest, pageNum, idx =>
    let r := chunkPage fns chunkSize overlap filename dt subject pageNum now
      (splitParas pg) [] 0 idx
    r.1 ++ createSemanticChunks fns chunkSize overlap filename dt subject now
      rest (pageNum + 1) r.2

/-- `DocumentIngestionPipeline._generate_doc_id` (the `filename` argument is
unused by the Python code as well). -/
def generateDocId (fns : ExtFns) (_filename content : String) : String :=
  "doc_" ++ (fns.sha256hex content).take 16

/-- `DocumentIngestionPipeline.process_text`; `now` and `elapsed` model
`datetime.utcnow().isoformat()` and the measured processing time. -/
def processText (fns : ExtFns) (chunkSize overlap : ℕ)
    (text filename : String) (hint : Option String) (now : String)
    (elapsed : ℚ) : ProcessedDocument :=
  let dt := detectDocumentType text
  let subject := if pyTruthy hint then hint.getD "" else inferSubject text filename
  let pages := [text]
  let chunks := createSemanticChunks fns chunkSize overlap filename dt subject
    now pages 1 0
  { doc_id := generateDocId fns filename text
    filename := filename
    doc_type := dt
    subject := subject
    total_chunks := chunks.length
    total_pages := 1
    chunks := chunks
    processing_time := elapsed
    timestamp := now }

end Ingestion

/-! ## Vector store (`vector_store.py`) -/

/-- `RetrievalResult` dataclass. -/
structure RetrievalResult where
  chunk : DocumentChunk
  score : ℚ
  rank : ℕ
deriving DecidableEq

/-- Sum of squares of a vector (the quantity under the square root in
`np.linalg.norm`). -/
def sumSq (v : List ℚ) : ℚ := (v.map (fun x => x * x)).sum

/-- Dot product (`np.dot`) of two equal-length vectors. -/
def dotProd (a b : List ℚ) : ℚ := (List.zipWith (· * ·) a b).sum

/-- `np.zeros(dim)`. -/
def zerosVec (dim : ℕ) : List ℚ := List.replicate dim 0

/-- The final normalisation step shared by `SimpleEmbedding.embed` and
`SimpleEmbedding._hash_embed`: divide by the norm when it is positive. -/
def normalizeVec (fns : ExtFns) (v : List ℚ) : List ℚ :=
  let n := fns.sqrtQ (sumSq v)
  if 0 < n then v.map (· / n) else v

/-- Word-occurrence counts in list order (a Python dict built by
`word_count[word] = word_count.get(word, 0) + 1`). -/
def wordCounts (words : List String) : List (String × ℕ) :=
  words.foldl (fun acc w => dictSet w ((dictGet w acc).getD 0 + 1) acc) []

/-- `SimpleEmbedding` state. -/
structure SimpleEmbedding where
  dimension : ℕ
  vocab : List (String × ℕ)
  idf : List (String × ℚ)
  is_fitted : Bool

/-- `SimpleEmbedding.__init__`. -/
def SimpleEmbedding.init (dimension : ℕ) : SimpleEmbedding :=
  { dimension := dimension, vocab := [], idf := [], is_fitted := false }

/-- Descending-score order used for Python stable sorts keyed on the second
component negated (`sorted(..., key=lambda x: -x[1])` and
`results.sort(key=lambda x: -x[1])`). -/
def scoreRel {α : Type} (a b : α × ℚ) : Prop := b.2 ≤ a.2

instance {α : Type} : DecidableRel (@scoreRel α) :=
  fun a b => inferInstanceAs (Decidable (b.2 ≤ a.2))

instance {α : Type} : IsTotal (α × ℚ) scoreRel :=
  ⟨fun a b => le_total b.2 a.2⟩

instance {α : Type} : IsTrans (α × ℚ) scoreRel :=
  ⟨fun _ _ _ h1 h2 => le_trans h2 h1⟩

/-- `word_doc_count` of `SimpleEmbedding.fit`: per word, the number of
documents containing it; `set(doc.lower().split())` is modelled in
first-occurrence order. -/
def wordDocCount (documents : List String) : List (String × ℕ) :=
  documents.foldl
    (fun acc doc =>
      (uniqAux [] (pyWords (pyLower doc))).foldl
        (fun acc w => dictSet w ((dictGet w acc).getD 0 + 1) acc) acc)
    []

/-- Attach 0-based indices: `{word: idx for idx, (word, _) in enumerate(...)}`. -/
def withIndices : ℕ → List (String × ℚ) → List (String × ℕ)
  | _, [] => []
  | i, (w, _) :: rest => (w, i) :: withIndices (i + 1) rest

/-- `SimpleEmbedding.fit`. -/
def SimpleEmbedding.fit (se : SimpleEmbedding) (fns : ExtFns)
    (documents : List String) : SimpleEmbedding :=
  let wdc := wordDocCount documents
  let numDocs : ℚ := documents.length
  let idf := wdc.map (fun p => (p.1, fns.logQ (numDocs / (p.2 + 1))))
  let sortedWords := List.insertionSort scoreRel idf
  { se with
    idf := idf
    vocab := withIndices 0 (sortedWords.take se.dimension)
    is_fitted := true }

/-- `SimpleEmbedding._hash_embed`. -/
def SimpleEmbedding.hashEmbed (se : SimpleEmbedding) (fns : ExtFns)
    (text : String) : List ℚ :=
  let v := (pyWords (pyLower text)).foldl
    (fun v w =>
      let idx := fns.wordHash w % se.dimension
      v.set idx (v.getD idx 0 + 1))
    (zerosVec se.dimension)
  normalizeVec fns v

/-- `SimpleEmbedding.embed`. -/
def SimpleEmbedding.embed (se : SimpleEmbedding) (fns : ExtFns)
    (text : String) : List ℚ :=
  if !se.is_fitted then se.hashEmbed fns text
  else
    let words := pyWords (pyLower text)
    let v := (wordCounts words).foldl
      (fun v p =>
        match dictGet p.1 se.vocab with
        | some idx =>
          let tf : ℚ := (p.2 : ℚ) / (words.length : ℚ)
          let idfv := (dictGet p.1 se.idf).getD 0
          v.set idx (tf * idfv)
        | none => v)
      (zerosVec se.dimension)
    normalizeVec fns v

/-- `VectorStore` state (the retrieval metrics of lines 132-134 are carried
but the latency update is not modelled; no claim mentions it). -/
structure VectorStore where
  dimension : ℕ
  embedder : SimpleEmbedding
  chunks : List (String × DocumentChunk)
  embeddings : List (String × List ℚ)
  by_subject : List (String × List String)
  by_doc_type : List (String × List String)
  by_topic : List (String × List String)
  total_retrievals : ℕ

/-- `VectorStore.__init__`. -/
def VectorStore.init (dim : ℕ) : VectorStore :=
  { dimension := dim, embedder := SimpleEmbedding.init dim, chunks := [],
    embeddings := [], by_subject := [], by_doc_type := [], by_topic := [],
    total_retrievals := 0 }

/-- `d.setdefault(k, []).append(x)` pattern of the index updates. -/
def dictAppend (k : String) (x : String) (d : List (String × List String)) :
    List (String × List String) :=
  dictSet k ((dictGet k d).getD [] ++ [x]) d

/-- The loop body of `VectorStore.add_chunks` for one chunk: store the
chunk, compute and store its embedding with the current embedder, and
update the three inverted indexes. Chunk `doc_type`/`difficulty` are always
enum members here (the `isinstance` branches of the Python code collapse to
`.value`). -/
def addChunkStep (fns : ExtFns) (vs : VectorStore) (c : DocumentChunk) :
    VectorStore :=
  { vs with
    chunks := dictSet c.chunk_id c vs.chunks
    embeddings := dictSet c.chunk_id (vs.embedder.embed fns c.content)
      vs.embeddings
    by_subject := dictAppend (pyLower c.subject) c.chunk_id vs.by_subject
    by_doc_type := dictAppend c.doc_type.val c.chunk_id vs.by_doc_type
    by_topic := dictAppend (pyLower c.topic) c.chunk_id vs.by_topic }

/-- `VectorStore.add_chunks`: refit the embedder when the incoming batch
has more than 10 chunks, then run the per-chunk loop. -/
def VectorStore.add_chunks (vs : VectorStore) (fns : ExtFns)
    (chunks : List DocumentChunk) : VectorStore :=
  let vs :=
    if chunks.length > 10 then
      { vs with embedder := vs.embedder.fit fns (chunks.map (·.content)) }
    else vs
  chunks.foldl (addChunkStep fns) vs

/-- `VectorStore._cosine_similarity`. -/
def cosineSim (fns : ExtFns) (a b : List ℚ) : ℚ :=
  let d := dotProd a b
  let na := fns.sqrtQ (sumSq a)
  let nb := fns.sqrtQ (sumSq b)
  if na = 0 ∨ nb = 0 then 0 else d / (na * nb)

/-- `VectorStore._get_filtered_candidates` as a set of chunk ids, listed in
chunk-dict insertion order. The Python code intersects Python sets and
returns `list(candidates)`, whose enumeration order is unspecified; the
callers of this definition apply an arbitrary reordering `setOrder` to model
that. Filters are the `.value` string (or raw string) of the corresponding
enum; a falsy filter (None or `""`) is skipped. -/
def VectorStore.filteredCandidates (vs : VectorStore)
    (subjectFilter docTypeFilter difficultyFilter : Option String) :
    List String :=
  let cands := vs.chunks.map (·.1)
  let cands :=
    if pyTruthy subjectFilter then
      cands.filter
        (fun id => id ∈ (dictGet (pyLower (subjectFilter.getD "")) vs.by_subject).getD [])
    else cands
  let cands :=
    if pyTruthy docTypeFilter then
      cands.filter
        (fun id => id ∈ (dictGet (docTypeFilter.getD "") vs.by_doc_type).getD [])
    else cands
  let cands :=
    if pyTruthy difficultyFilter then
      cands.filter
        (fun id =>
          match dictGet id vs.chunks with
          | some c => c.difficulty.val = difficultyFilter.getD ""
          | none => false)
    else cands
  cands

/-- Fallback value for the (unreachable on valid candidates) missing-chunk
lookup; Python would raise `KeyError` there. -/
def defaultChunk : DocumentChunk :=
  { chunk_id := "", content := "", subject := "", doc_type := .UNKNOWN,
    topic := "", difficulty := .INTERMEDIATE, source_file := "",
    page_number := none, chunk_index := 0, timestamp := "", word_count := 0 }

/-- `enumerate(results[:top_k], 1)`: build `RetrievalResult`s with 1-based
consecutive ranks. -/
def rankResults (vs : VectorStore) : ℕ → List (String × ℚ) →
    List RetrievalResult
  | _, [] => []
  | rank, p :: rest =>
    { chunk := (dictGet p.1 vs.chunks).getD defaultChunk, score := p.2,
      rank := rank } :: rankResults vs (rank + 1) rest

/-- The scored candidate list of `VectorStore.retrieve` before sorting:
embed the query, enumerate the filtered candidate set in the order given by
`setOrder` (Python set iteration), skip ids with no stored embedding, score
by cosine similarity and drop scores below `min_score`. -/
def VectorStore.scoredCandidates (vs : VectorStore) (fns : ExtFns)
    (setOrder : List String → List String) (query : String)
    (subjectFilter docTypeFilter difficultyFilter : Option String)
    (minScore : ℚ) : List (String × ℚ) :=
  let qe := vs.embedder.embed fns query
  (setOrder (vs.filteredCandidates subjectFilter docTypeFilter
      difficultyFilter)).filterMap
    (fun id =>
      match dictGet id vs.embeddings with
      | none => none
      | some e =>
        let s := cosineSim fns qe e
        if minScore ≤ s then some (id, s) else none)

/-- `VectorStore.retrieve`: score, sort stably by descending score (Python
`list.sort(key=lambda x: -x[1])` is stable, as is `insertionSort` with
`scoreRel`), truncate to `top_k` and attach 1-based ranks. -/
def VectorStore.retrieve (vs : VectorStore) (fns : ExtFns)
    (setOrder : List String → List String) (query : String) (topK : ℕ)
    (subjectFilter docTypeFilter difficultyFilter : Option String)
    (minScore : ℚ) : List RetrievalResult :=
  let scored := vs.scoredCandidates fns setOrder query subjectFilter
    docTypeFilter difficultyFilter minScore
  let sorted := List.insertionSort scoreRel scored
  rankResults vs 1 (sorted.take topK)

/-! ## Query router (`query_router.py`) -/

/-- `QueryRoute` enum. -/
inductive QueryRoute where
  | RAG | ALGORITHMIC | REASONING_LLM | HYBRID
deriving DecidableEq

/-- `QueryIntent` enum. -/
inductive QueryIntent where
  | THEORY_EXPLANATION | CONCEPT_CLARIFICATION | DEFINITION_LOOKUP
  | EXAMPLE_REQUEST | LAB_PROCEDURE | EXAM_QUESTION
  | SCHEDULE_QUERY | PROGRESS_CHECK | ANALYTICS_REQUEST | PLAN_GENERATION
  | CODE_GENERATION | PROBLEM_SOLVING | COMPARISON_ANALYSIS
  | CRITICAL_THINKING | GENERAL_CHAT
deriving DecidableEq

/-- The suggested-filters dict of a routing decision, as named optional
fields. -/
structure SuggestedFilters where
  subject : Option String
  doc_type : Option String
  topic : Option String
deriving DecidableEq

/-- `RoutingDecision` dataclass. -/
structure RoutingDecision where
  route : QueryRoute
  intent : QueryIntent
  confidence : ℚ
  reasoning : String
  suggested_filters : SuggestedFilters

namespace Router

/-- Token of the regular-expression subset used by the router patterns:
literals, groups of literal alternatives, `.*`, `\s*` and `\b`. -/
inductive RTok where
  | lit : String → RTok
  | alts : List String → RTok
  | anyStar : RTok
  | wsStar : RTok
  | wordB : RTok

/-- A word character for `\b` (`[a-zA-Z0-9_]`). -/
def isWordChar (c : Char) : Bool := c.isAlphanum || c = '_'

/-- Is the position between `prev` and the head of `s` a `\b` word
boundary? -/
def atBoundary (prev : Option Char) (s : List Char) : Bool :=
  let pw := match prev with | some c => isWordChar c | none => false
  let nw := match s with | c :: _ => isWordChar c | [] => false
  pw != nw

/-- Match a literal (case-insensitively, `re.IGNORECASE` with lowercase
patterns) against a prefix of `s`; on success return the new previous
character and the rest. -/
def litMatch : List Char → Option Char → List Char →
    Option (Option Char × List Char)
  | [], prev, s => some (prev, s)
  | p :: ps, _, c :: s => if c.toLower = p then litMatch ps (some c) s else none
  | _ :: _, _, [] => none

/-- Fuel-indexed backtracking matcher for a token list at a fixed position.
Each recursive call removes a token or consumes a character, so
`tokens + characters + 1` fuel suffices. `.` does not match a newline
(no `re.DOTALL`). -/
def matchToks : ℕ → List RTok → Option Char → List Char → Bool
  | 0, _, _, _ => false
  | _ + 1, [], _, _ => true
  | f + 1, .wordB :: ts, prev, s => atBoundary prev s && matchToks f ts prev s
  | f + 1, .lit w :: ts, prev, s =>
    match litMatch w.toList prev s with
    | some (p', s') => matchToks f ts p' s'
    | none => false
  | f + 1, .alts ws :: ts, prev, s =>
    ws.any (fun w =>
      match litMatch w.toList prev s with
      | some (p', s') => matchToks f ts p' s'
      | none => false)
  | f + 1, .anyStar :: ts, prev, s =>
    matchToks f ts prev s ||
      (match s with
       | c :: s' => c != '\n' && matchToks f (.anyStar :: ts) (some c) s'
       | [] => false)
  | f + 1, .wsStar :: ts, prev, s =>
    matchToks f ts prev s ||
      (match s with
       | c :: s' => isPySpace c && matchToks f (.wsStar :: ts) (some c) s'
       | [] => false)

/-- Try the pattern at every start position (`re.search`). -/
def searchFrom (ts : List RTok) : Option Char → List Char → Bool
  | prev, s =>
    matchToks (ts.length + s.length + 1) ts prev s ||
      match s with
      | c :: s' => searchFrom ts (some c) s'
      | [] => false

/-- `re.search(pattern, query, re.IGNORECASE)` for the pattern subset. -/
def reSearch (ts : List RTok) (s : String) : Bool :=
  searchFrom ts none s.toList

/-- `self.rag_patterns`, in list order. -/
def ragPatterns : List (List RTok × QueryIntent) :=
  [([.wordB, .alts ["what is", "define", "explain", "describe"], .wordB,
      .anyStar, .wordB, .alts ["concept", "theory", "principle", "law"],
      .wordB], .THEORY_EXPLANATION),
   ([.wordB, .alts ["what are", "list", "give"], .wordB, .anyStar, .wordB,
      .alts ["types", "kinds", "categories", "examples"], .wordB],
     .THEORY_EXPLANATION),
   ([.wordB, .lit "explain", .wordB], .CONCEPT_CLARIFICATION),
   ([.wordB, .lit "what is", .wordB], .DEFINITION_LOOKUP),
   ([.wordB, .lit "define", .wordB], .DEFINITION_LOOKUP),
   ([.wordB, .lit "meaning of", .wordB], .DEFINITION_LOOKUP),
   ([.wordB, .alts ["give", "show", "provide"], .wordB, .anyStar, .wordB,
      .lit "example"], .EXAMPLE_REQUEST),
   ([.wordB, .lit "for example", .wordB], .EXAMPLE_REQUEST),
   ([.wordB, .lit "illustrate", .wordB], .EXAMPLE_REQUEST),
   ([.wordB, .alts ["procedure", "steps", "how to"], .wordB, .anyStar,
      .wordB, .alts ["lab", "experiment", "practical"], .wordB],
     .LAB_PROCEDURE),
   ([.wordB, .lit "lab", .wordB, .anyStar, .wordB,
      .alts ["manual", "procedure", "experiment"], .wordB], .LAB_PROCEDURE),
   ([.wordB, .lit "practical", .wordB, .anyStar, .wordB,
      .alts ["steps", "procedure"], .wordB], .LAB_PROCEDURE),
   ([.wordB, .alts ["exam", "test", "quiz"], .wordB, .anyStar, .wordB,
      .lit "question"], .EXAM_QUESTION),
   ([.wordB, .lit "previous year", .wordB], .EXAM_QUESTION),
   ([.wordB, .lit "important questions", .wordB], .EXAM_QUESTION),
   ([.wordB, .lit "mark", .wsStar, .lit "question"], .EXAM_QUESTION)]

/-- `self.algorithmic_patterns`, in list order. -/
def algorithmicPatterns : List (List RTok × QueryIntent) :=
  [([.wordB, .alts ["schedule", "plan", "organize"], .wordB, .anyStar,
      .wordB, .alts ["study", "learning", "exam"], .wordB], .PLAN_GENERATION),
   ([.wordB, .lit "my progress", .wordB], .PROGRESS_CHECK),
   ([.wordB, .lit "how much", .wordB, .anyStar, .wordB,
      .alts ["completed", "done", "learned"], .wordB], .PROGRESS_CHECK),
   ([.wordB, .lit "analyze", .wordB, .anyStar, .wordB,
      .alts ["performance", "score", "grade"], .wordB], .ANALYTICS_REQUEST),
   ([.wordB, .lit "statistics", .wordB], .ANALYTICS_REQUEST),
   ([.wordB, .lit "when should", .wordB, .anyStar, .wordB, .lit "study",
      .wordB], .SCHEDULE_QUERY),
   ([.wordB, .lit "time management", .wordB], .SCHEDULE_QUERY)]

/-- `self.reasoning_patterns`, in list order. -/
def reasoningPatterns : List (List RTok × QueryIntent) :=
  [([.wordB, .alts ["write", "generate", "create"], .wordB, .anyStar,
      .wordB, .lit "code", .wordB], .CODE_GENERATION),
   ([.wordB, .alts ["implement", "program"], .wordB], .CODE_GENERATION),
   ([.wordB, .lit "solve", .wordB, .anyStar, .wordB,
      .alts ["problem", "equation", "exercise"], .wordB], .PROBLEM_SOLVING),
   ([.wordB, .lit "calculate", .wordB], .PROBLEM_SOLVING),
   ([.wordB, .alts ["compare", "contrast", "difference"], .wordB, .anyStar,
      .wordB, .lit "between", .wordB], .COMPARISON_ANALYSIS),
   ([.wordB, .alts ["pros and cons", "advantages", "disadvantages"], .wordB],
     .COMPARISON_ANALYSIS),
   ([.wordB, .lit "why", .wordB, .anyStar, .wordB,
      .alts ["better", "worse", "important"], .wordB], .CRITICAL_THINKING),
   ([.wordB, .lit "what if", .wordB], .CRITICAL_THINKING),
   ([.wordB, .lit "analyze", .wordB, .anyStar, .wordB,
      .alts ["critically", "deeply"], .wordB], .CRITICAL_THINKING)]

/-- The `academic_indicators` list. -/
def academicIndicators : List String :=
  ["learn", "study", "understand", "concept", "topic", "chapter", "subject"]

/-- First pattern of a category matching the query
(`for pattern, intent in ...: if re.search(...)`). -/
def firstMatch (pats : List (List RTok × QueryIntent)) (q : String) :
    Option QueryIntent :=
  pats.findSome? (fun p => if reSearch p.1 q then some p.2 else none)

/-- `QueryRouter._classify_query`: returns (intent, route, confidence). -/
def classifyQuery (q : String) : QueryIntent × QueryRoute × ℚ :=
  match firstMatch ragPatterns q with
  | some i => (i, .RAG, 85/100)
  | none =>
    match firstMatch algorithmicPatterns q with
    | some i => (i, .ALGORITHMIC, 80/100)
    | none =>
      match firstMatch reasoningPatterns q with
      | some i =>
        if i = .PROBLEM_SOLVING ∨ i = .COMPARISON_ANALYSIS then
          (i, .HYBRID, 75/100)
        else (i, .REASONING_LLM, 80/100)
      | none =>
        if academicIndicators.any (fun ind => pyIn ind q) then
          (.CONCEPT_CLARIFICATION, .RAG, 60/100)
        else (.GENERAL_CHAT, .REASONING_LLM, 50/100)

end Router

/-! ## Inference manager (`llm_manager.py`) -/

/-- `LLMProvider` enum. -/
inductive LLMProvider where
  | GROQ | OPENROUTER | OPENAI | LOCAL
deriving DecidableEq

/-- `LLMResponse` dataclass. -/
structure LLMResponse where
  content : String
  provider : LLMProvider
  model : String
  tokens_used : ℕ
  latency_ms : ℚ
  cached : Bool
deriving DecidableEq

/-- `ProviderConfig` dataclass. -/
structure ProviderConfig where
  provider : LLMProvider
  api_key : String
  base_url : String
  default_model : String
  fallback_models : List String
  max_tokens : ℕ
  temperature : ℚ

/-- `LLMManager` mutable state. -/
structure LLMManagerState where
  providers : List (LLMProvider × ProviderConfig)
  provider_priority : List LLMProvider
  total_requests : ℕ
  successful_requests : ℕ
  failed_requests : ℕ
  provider_usage : List (LLMProvider × ℕ)
  fallback_count : ℕ
  cache : List (String × LLMResponse)
  cache_enabled : Bool
  cache_max_size : ℕ

namespace Manager

/-- `LLMManager._init_providers`, parameterised by the three environment
keys (`None`/empty is falsy). The local provider is always appended last. -/
def initProviders (groqKey openrouterKey openaiKey : Option String) :
    LLMManagerState :=
  let st : LLMManagerState :=
    { providers := [], provider_priority := [], total_requests := 0,
      successful_requests := 0, failed_requests := 0, provider_usage := [],
      fallback_count := 0, cache := [], cache_enabled := true,
      cache_max_size := 1000 }
  let st :=
    if pyTruthy groqKey then
      { st with
        providers := dictSet LLMProvider.GROQ
          { provider := .GROQ, api_key := groqKey.getD ""
            base_url := "https://api.groq.com/openai/v1"
            default_model := "llama-3.3-70b-versatile"
            fallback_models := ["llama-3.1-8b-instant", "mixtral-8x7b-32768"]
            max_tokens := 4096, temperature := 7/10 } st.providers
        provider_priority := st.provider_priority ++ [.GROQ] }
    else st
  let st :=
    if pyTruthy openrouterKey then
      { st with
        providers := dictSet LLMProvider.OPENROUTER
          { provider := .OPENROUTER, api_key := openrouterKey.getD ""
            base_url := "https://openrouter.ai/api/v1"
            default_model := "meta-llama/llama-3.1-8b-instruct:free"
            fallback_models := ["google/gemma-2-9b-it:free",
              "mistralai/mistral-7b-instruct:free"]
            max_tokens := 2048, temperature := 7/10 } st.providers
        provider_priority := st.provider_priority ++ [.OPENROUTER] }
    else st
  let st :=
    if pyTruthy openaiKey then
      { st with
        providers := dictSet LLMProvider.OPENAI
          { provider := .OPENAI, api_key := openaiKey.getD ""
            base_url := "https://api.openai.com/v1"
            default_model := "gpt-3.5-turbo"
            fallback_models := ["gpt-3.5-turbo-16k"]
            max_tokens := 2048, temperature := 7/10 } st.providers
        provider_priority := st.provider_priority ++ [.OPENAI] }
    else st
  { st with
    providers := dictSet LLMProvider.LOCAL
      { provider := .LOCAL, api_key := "", base_url := ""
        default_model := "demo-model", fallback_models := []
        max_tokens := 1024, temperature := 0 } st.providers
    provider_priority := st.provider_priority ++ [.LOCAL] }

/-- `LLMManager._local_response`: the deterministic rule-based responder. -/
def localResponse (prompt : String) (_systemPrompt : Option String) :
    LLMResponse :=
  let promptLower := pyLower prompt
  let content :=
    if pyIn "explain" promptLower || pyIn "what is" promptLower then
      "Based on your study materials, here\x27s an explanation:\n\nThis concept is fundamental to understanding the subject. The key points are:\n\n1. **Core Definition**: The basic principle that governs this topic\n2. **Key Components**: The essential elements that make up this concept\n3. **Application**: How this is used in practical scenarios\n\nWould you like me to elaborate on any specific aspect?"
    else if pyIn "example" promptLower then
      "Here\x27s an example from your course materials:\n\n**Example:**\nConsider a scenario where we need to apply this concept...\n\n**Step 1:** First, identify the key variables\n**Step 2:** Apply the relevant formula or principle\n**Step 3:** Calculate and verify the result\n\nThis demonstrates how the concept works in practice."
    else if pyIn "lab" promptLower || pyIn "practical" promptLower then
      "Here\x27s the procedure from your lab manual:\n\n**Objective:** To demonstrate the practical application of the concept\n\n**Materials Required:**\n- Required equipment and materials\n\n**Procedure:**\n1. Set up the apparatus as shown in the diagram\n2. Follow safety precautions\n3. Perform the experiment steps\n4. Record observations\n5. Analyze results\n\n**Expected Outcome:** The experiment should demonstrate..."
    else
      "I\x27m here to help with your studies. Based on my understanding:\n\nYour question touches on an important academic concept. To provide the most accurate information, I\x27m drawing from your uploaded study materials.\n\nPlease let me know if you\x27d like:\n- A detailed explanation of specific topics\n- Examples and practice problems\n- Lab procedures and practical guidance\n- Exam preparation tips"
  { content := content, provider := .LOCAL, model := "demo-model",
    tokens_used := (pyWords content).length, latency_ms := 50,
    cached := false }

/-- The outcome of one remote `_call_provider` HTTP attempt, abstracting
the network: given provider, model, prompt and system prompt, either a
response or the raised exception rendered as a string. -/
def CallOutcome : Type :=
  LLMProvider → String → String → Option String → Except String LLMResponse

/-- `LLMManager._call_provider`: the local provider answers via
`_local_response` and never fails; remote providers go to the network. -/
def callProvider (co : CallOutcome) (cfg : ProviderConfig)
    (model prompt : String) (systemPrompt : Option String) :
    Except String LLMResponse :=
  if cfg.provider = .LOCAL then .ok (localResponse prompt systemPrompt)
  else co cfg.provider model prompt systemPrompt

/-- `LLMManager._cache_key`. -/
def cacheKey (fns : ExtFns) (prompt : String) (systemPrompt : Option String) :
    String :=
  fns.md5hex ((systemPrompt.getD "") ++ prompt)

/-- `LLMManager._add_to_cache`: evict the oldest (first-inserted) entry when
the cache is full, then store. -/
def addToCache (key : String) (response : LLMResponse)
    (st : LLMManagerState) : LLMManagerState :=
  let cache :=
    if st.cache.length ≥ st.cache_max_size then st.cache.drop 1 else st.cache
  { st with cache := dictSet key response cache }

/-- `f"{e}"` of the `last_error` variable (initially `None`). -/
def lastErrStr : Option String → String
  | none => "None"
  | some e => e

/-- The inner model loop of `LLMManager.generate` for one provider: try
each model in order; each failure increments `fallback_count` and records
the error. Returns the state, the first successful response (if any) and
the latest error. -/
def tryModels (co : CallOutcome) (cfg : ProviderConfig)
    (prompt : String) (systemPrompt : Option String) :
    List String → LLMManagerState → Option String →
    LLMManagerState × Option LLMResponse × Option String
  | [], st, lastErr => (st, none, lastErr)
  | m :: ms, st, lastErr =>
    match callProvider co cfg m prompt systemPrompt with
    | .ok r => (st, some r, lastErr)
    | .error e =>
      tryModels co cfg prompt systemPrompt ms
        { st with fallback_count := st.fallback_count + 1 } (some e)

/-- Success bookkeeping of `generate`: bump `successful_requests` and the
provider usage counter, and cache the response when caching is on. -/
def recordSuccess (p : LLMProvider) (r : LLMResponse) (useCache : Bool)
    (key : String) (st : LLMManagerState) : LLMManagerState :=
  let st := { st with
    successful_requests := st.successful_requests + 1
    provider_usage :=
      dictSet p ((dictGet p st.provider_usage).getD 0 + 1) st.provider_usage }
  if useCache && st.cache_enabled then addToCache key r st else st

/-- The outer provider loop of `LLMManager.generate`: providers in priority
order, skipping those absent from the registry; when the whole matrix is
exhausted, bump `failed_requests` and raise carrying the last error. -/
def tryProviders (co : CallOutcome) (fns : ExtFns) (prompt : String)
    (systemPrompt : Option String) (useCache : Bool) (key : String) :
    List LLMProvider → LLMManagerState → Option String →
    LLMManagerState × Except String LLMResponse
  | [], st, lastErr =>
    ({ st with failed_requests := st.failed_requests + 1 },
     .error ("All LLM providers failed. Last error: " ++ lastErrStr lastErr))
  | p :: ps, st, lastErr =>
    match dictGet p st.providers with
    | none => tryProviders co fns prompt systemPrompt useCache key ps st lastErr
    | some cfg =>
      match tryModels co cfg prompt systemPrompt
          (cfg.default_model :: cfg.fallback_models) st lastErr with
      | (st', some r, _) => (recordSuccess p r useCache key st', .ok r)
      | (st', none, lastErr') =>
        tryProviders co fns prompt systemPrompt useCache key ps st' lastErr'

/-- `LLMManager.generate`: bump `total_requests`, serve from the cache on a
hit (marking the stored and returned response as cached), otherwise run the
provider x model fallback loop. -/
def generate (fns : ExtFns) (co : CallOutcome) (st : LLMManagerState)
    (prompt : String) (systemPrompt : Option String) (useCache : Bool) :
    LLMManagerState × Except String LLMResponse :=
  let st := { st with total_requests := st.total_requests + 1 }
  let key := cacheKey fns prompt systemPrompt
  if useCache && st.cache_enabled then
    match dictGet key st.cache with
    | some r =>
      let r' := { r with cached := true }
      ({ st with cache := dictSet key r' st.cache }, .ok r')
    | none =>
      tryProviders co fns prompt systemPrompt useCache key
        st.provider_priority st none
  else
    tryProviders co fns prompt systemPrompt useCache key
      st.provider_priority st none

/-- The flattened (provider, model) attempt sequence of one `generate` call:
for each configured provider in priority order, its default model then its
fallbacks. -/
def attemptList (priority : List LLMProvider)
    (providers : List (LLMProvider × ProviderConfig)) :
    List (LLMProvider × String) :=
  priority.flatMap (fun p =>
    match dictGet p providers with
    | none => []
    | some cfg => (cfg.default_model :: cfg.fallback_models).map (fun m => (p, m)))

end Manager

/-! ## RAG executor (`rag_executor.py`) -/

/-- One citation record of `RAGExecutor._build_citations`. -/
structure CitationRec where
  source_id : ℕ
  subject : String
  topic : String
  doc_type : String
  score : ℚ
  chunk_id : String
deriving DecidableEq

/-- `RAGResponse` dataclass. -/
structure RAGResponse where
  answer : String
  citations : List CitationRec
  confidence : ℚ
  route_used : QueryRoute
  retrieval_results : List RetrievalResult
  llm_response : Option LLMResponse
deriving DecidableEq

namespace Executor

/-- Round half to even at integer precision (Python 3 `round`). Python
rounds the binary double; this is the exact-rational reading of the same
rule. -/
def roundHalfEven (q : ℚ) : ℤ :=
  let f := ⌊q⌋
  let frac := q - f
  if frac < 1/2 then f
  else if 1/2 < frac then f + 1
  else if Even f then f else f + 1

/-- Python `round(q, n)`. -/
def pyRound (n : ℕ) (q : ℚ) : ℚ :=
  ((roundHalfEven (q * 10 ^ n) : ℚ)) / 10 ^ n

/-- `RAGExecutor._format_context` (one numbered block per result). -/
def formatContextAux : ℕ → List RetrievalResult → List String
  | _, [] => []
  | i, r :: rest =>
    ("\n[Source " ++ toString i ++ "]\nSubject: " ++ r.chunk.subject
      ++ "\nTopic: " ++ r.chunk.topic ++ "\nType: " ++ r.chunk.doc_type.val
      ++ "\nContent:\n" ++ r.chunk.content ++ "\n---")
      :: formatContextAux (i + 1) rest

/-- `RAGExecutor._format_context`. -/
def formatContext (results : List RetrievalResult) : String :=
  String.intercalate "\n" (formatContextAux 1 results)

/-- The shared base system prompt of `_build_system_prompt`. -/
def basePrompt : String :=
  "You are LearnCopilot, an academic AI assistant. Your role is to help students learn and understand their course materials.\n\nCRITICAL RULES:\n1. ONLY use information from the provided context/sources\n2. If the context doesn\x27t contain the answer, say \"I don\x27t have information about this in your study materials\"\n3. ALWAYS cite sources using [Source N] format\n4. Be academically accurate and educational\n5. Explain concepts clearly for student understanding"

/-- The per-intent addition of `_build_system_prompt`
(`intent_additions.get(intent, "")`). -/
def intentAddition : QueryIntent → String
  | .THEORY_EXPLANATION =>
    "\nFor theory explanations:\n- Start with a clear definition\n- Explain the underlying principles\n- Use the exact terminology from the sources\n- Add examples if present in the context"
  | .CONCEPT_CLARIFICATION =>
    "\nFor concept clarification:\n- Break down complex ideas into simpler parts\n- Use analogies if helpful\n- Connect to related concepts mentioned in sources"
  | .DEFINITION_LOOKUP =>
    "\nFor definitions:\n- Provide the exact definition from sources\n- Keep it concise and precise\n- Mention the source explicitly"
  | .EXAMPLE_REQUEST =>
    "\nFor examples:\n- Provide examples exactly as given in sources\n- Add step-by-step explanation if appropriate\n- Use proper formatting for code/formulas"
  | .LAB_PROCEDURE =>
    "\nFor lab procedures:\n- List steps clearly and in order\n- Include safety precautions\n- Mention required materials\n- Follow the exact procedure from sources"
  | .EXAM_QUESTION =>
    "\nFor exam questions:\n- Present questions as they appear in sources\n- Include mark weightage if mentioned\n- Provide answer hints if available in context"
  | _ => ""

/-- `RAGExecutor._build_system_prompt`. -/
def buildSystemPrompt (intent : QueryIntent) : String :=
  basePrompt ++ intentAddition intent

/-- `RAGExecutor._build_user_prompt` after `str.format` substitution. -/
def buildUserPrompt (query context : String) : String :=
  "Based on the following study materials, answer the student\x27s question.\n\nSTUDY MATERIALS:\n"
    ++ context
    ++ "\n\nSTUDENT\x27S QUESTION:\n"
    ++ query
    ++ "\n\nINSTRUCTIONS:\n- Answer using ONLY information from the study materials above\n- Cite sources using [Source N] format\n- If information is not in the materials, explicitly say so\n- Be educational and helpful\n\nYOUR RESPONSE:"

/-- `RAGExecutor._build_citations`. -/
def buildCitationsAux : ℕ → List RetrievalResult → List CitationRec
  | _, [] => []
  | i, r :: rest =>
    { source_id := i, subject := r.chunk.subject, topic := r.chunk.topic,
      doc_type := r.chunk.doc_type.val, score := pyRound 3 r.score,
      chunk_id := r.chunk.chunk_id } :: buildCitationsAux (i + 1) rest

/-- `RAGExecutor._build_citations` (1-based source ids). -/
def buildCitations (results : List RetrievalResult) : List CitationRec :=
  buildCitationsAux 1 results

/-- `RAGExecutor._calculate_confidence` (the `llm_response` argument is
unused by the Python code as well). -/
def calcConfidence (results : List RetrievalResult)
    (_llmResponse : Option LLMResponse) : ℚ :=
  if results.isEmpty then 0
  else
    let avgScore := (results.map (·.score)).sum / (results.length : ℚ)
    let sourceFactor := min ((results.length : ℚ) / 3) 1
    let confidence := avgScore * (7/10) + sourceFactor * (3/10)
    pyRound 2 (min confidence 1)

/-- The fixed answer text of `_insufficient_context_response`. -/
def insufficientAnswer : String :=
  "I couldn\x27t find relevant information in your uploaded study materials to answer this question.\n\nThis could mean:\n1. You haven\x27t uploaded materials covering this topic yet\n2. The topic might be named differently in your materials\n3. This might be outside the scope of your current subjects\n\n**What you can do:**\n- Upload relevant PDFs, notes, or textbooks covering this topic\n- Try rephrasing your question with different keywords\n- Specify the subject you\x27re asking about\n\nWould you like me to help with something else from your existing materials?"

/-- `RAGExecutor._insufficient_context_response`. -/
def insufficientContextResponse (_query : String) (rd : RoutingDecision) :
    RAGResponse :=
  { answer := insufficientAnswer, citations := [], confidence := 0,
    route_used := rd.route, retrieval_results := [], llm_response := none }

/-- The filter-resolution prologue of `RAGExecutor.execute`: an explicit
falsy `subject` argument is replaced by the suggested subject filter when
the router provided one. -/
def resolveSubject (subject : Option String) (rd : RoutingDecision) :
    Option String :=
  if !pyTruthy subject && rd.suggested_filters.subject.isSome then
    rd.suggested_filters.subject
  else subject

/-- `RAGExecutor.execute`: resolve filters, retrieve at most 5 chunks above
similarity 0.3, short-circuit to the insufficient-context response when
nothing is retrieved, otherwise build the prompts, call the inference
manager (threading its state), and assemble the cited answer. A raised
`generate` error propagates. -/
def execute (vs : VectorStore) (fns : ExtFns)
    (setOrder : List String → List String) (co : Manager.CallOutcome)
    (query : String) (rd : RoutingDecision)
    (subject docType difficulty : Option String)
    (lst : LLMManagerState) : LLMManagerState × Except String RAGResponse :=
  let subject := resolveSubject subject rd
  let retrievalResults := vs.retrieve fns setOrder query 5 subject docType
    difficulty (3/10)
  if retrievalResults.isEmpty then
    (lst, .ok (insufficientContextResponse query rd))
  else
    let context := formatContext retrievalResults
    let systemPrompt := buildSystemPrompt rd.intent
    let userPrompt := buildUserPrompt query context
    match Manager.generate fns co lst userPrompt (some systemPrompt) true with
    | (lst', .error e) => (lst', .error e)
    | (lst', .ok llmResponse) =>
      (lst',
       .ok { answer := llmResponse.content
             citations := buildCitations retrievalResults
             confidence := calcConfidence retrievalResults (some llmResponse)
             route_used := rd.route
             retrieval_results := retrievalResults
             llm_response := some llmResponse })

end Executor

/-! ## Shared test fixtures -/

/-- Concrete external-function bundle for closed witnesses and
counterexamples. `sqrtQ ≡ 0` makes every norm compare equal to zero, which
exercises the zero-norm branches; the divergences exhibited below do not
depend on this choice (see the individual theorems). -/
def testFns : ExtFns :=
  { md5hex := fun s => s, sha256hex := fun s => s, wordHash := fun _ => 0,
    logQ := fun _ => 0, sqrtQ := fun _ => 0 }

/-- A minimal chunk for store-level tests. -/
def testChunk (id content subject : String) : DocumentChunk :=
  { chunk_id := id, content := content, subject := subject,
    doc_type := .NOTES, topic := "t", difficulty := .INTERMEDIATE,
    source_file := "f", page_number := some 1, chunk_index := 0,
    timestamp := "", word_count := 1 }

/-- A neutral routing decision for executor tests. -/
def testDecision : RoutingDecision :=
  { route := .RAG, intent := .DEFINITION_LOOKUP, confidence := 85/100,
    reasoning := "", suggested_filters := ⟨none, none, none⟩ }

/-! ## Derived definitions and concrete fixtures -/

/-- Two-chunk store with identical content (hence identical embeddings and
tied similarity scores) inserted as `c1` then `c2`. -/
def tieStore : VectorStore :=
  (VectorStore.init 2).add_chunks testFns
    [testChunk "c1" "alpha" "s", testChunk "c2" "alpha" "s"]

namespace Routes

/-- All `DocumentType` members, in enum declaration order. -/
def allDocTypes : List DocumentType :=
  [.SYLLABUS, .NOTES, .LAB_MANUAL, .EXAM, .OUTCOMES, .JOB_DESCRIPTION,
   .TEXTBOOK, .UNKNOWN]

/-- `DocumentType(s)`: the member with value `s`, if any. -/
def docTypeFromValue (s : String) : Option DocumentType :=
  allDocTypes.find? (fun dt => dt.val == s)

/-- The filter-parsing step of the `/rag/query` route handler
(`rag_routes.py` lines 184-189): a falsy token stays `None`; an invalid
token raises `ValueError`, which is swallowed, leaving `None`. -/
def parseDocType (tok : Option String) : Option DocumentType :=
  if pyTruthy tok then docTypeFromValue (tok.getD "") else none

/-- All `Difficulty` members, in enum declaration order. -/
def allDifficulties : List Difficulty := [.INTRO, .INTERMEDIATE, .ADVANCED]

/-- `Difficulty(s)`: the member with value `s`, if any. -/
def difficultyFromValue (s : String) : Option Difficulty :=
  allDifficulties.find? (fun d => d.val == s)

/-- The difficulty-parsing step of the `/rag/query` route handler
(`rag_routes.py` lines 191-195). -/
def parseDifficulty (tok : Option String) : Option Difficulty :=
  if pyTruthy tok then difficultyFromValue (tok.getD "") else none

end Routes

/-- One-chunk store (`doc_type` value `"notes"`). -/
def singleStore : VectorStore :=
  (VectorStore.init 2).add_chunks testFns [testChunk "c1" "alpha" "s"]

/-- The embedder state used for all embeddings computed by one
`add_chunks` call: refit exactly when the batch has more than 10 chunks. -/
def embAfter (vs : VectorStore) (fns : ExtFns)
    (chunks : List DocumentChunk) : SimpleEmbedding :=
  if chunks.length > 10 then vs.embedder.fit fns (chunks.map (·.content))
  else vs.embedder

/-- An 11-chunk batch (each a distinct single word), large enough to
trigger a refit. -/
def bigBatch : List DocumentChunk :=
  (List.range 11).map
    (fun i => testChunk ("d" ++ toString i) ("w" ++ toString i) "s")

/-- Store after indexing one chunk (`"zzz"`) with the unfitted embedder. -/
def preStore : VectorStore :=
  (VectorStore.init 2).add_chunks testFns [testChunk "cz" "zzz" "s"]

/-- `preStore` after an 11-chunk batch, which refits the vocabulary. -/
def staleStore : VectorStore := preStore.add_chunks testFns bigBatch

/-- Replace a chunk's timestamp (the only wall-clock-dependent field). -/
def setTs (now : String) (c : DocumentChunk) : DocumentChunk :=
  { c with timestamp := now }

namespace Manager

/-- Outcome of one (provider, model) attempt, looking the provider's config
up in the registry (never missing for pairs of `attemptList`). -/
def attemptResult (co : CallOutcome)
    (providers : List (LLMProvider × ProviderConfig)) (prompt : String)
    (systemPrompt : Option String) (pm : LLMProvider × String) :
    Except String LLMResponse :=
  match dictGet pm.1 providers with
  | some cfg => callProvider co cfg pm.2 prompt systemPrompt
  | none => .error "provider not configured"

/-- The provider x model loop flattened over the attempt list. -/
def runFlat (co : CallOutcome)
    (providers : List (LLMProvider × ProviderConfig)) (prompt : String)
    (systemPrompt : Option String) (useCache : Bool) (key : String) :
    List (LLMProvider × String) → LLMManagerState → Option String →
    LLMManagerState × Except String LLMResponse
  | [], st, lastErr =>
    ({ st with failed_requests := st.failed_requests + 1 },
     .error ("All LLM providers failed. Last error: " ++ lastErrStr lastErr))
  | pm :: rest, st, _ =>
    match attemptResult co providers prompt systemPrompt pm with
    | .ok r => (recordSuccess pm.1 r useCache key st, .ok r)
    | .error e =>
      runFlat co providers prompt systemPrompt useCache key rest
        { st with fallback_count := st.fallback_count + 1 } (some e)

/-- The last per-attempt error after running a list of attempts (the value
of the Python `last_error` variable). -/
def lastErrorOf (co : CallOutcome)
    (providers : List (LLMProvider × ProviderConfig)) (prompt : String)
    (sys : Option String) (L : List (LLMProvider × String))
    (init : Option String) : Option String :=
  L.foldl
    (fun acc a =>
      match attemptResult co providers prompt sys a with
      | .error e => some e
      | .ok _ => acc)
    init

end Manager

/-- The configuration `_init_providers` always registers for the local
provider. -/
def localCfg : ProviderConfig :=
  { provider := .LOCAL, api_key := "", base_url := ""
    default_model := "demo-model", fallback_models := []
    max_tokens := 1024, temperature := 0 }

/-- The confidence formula as the specification words it: `0.7 × mean
similarity + 0.3 × min(count/3, 1)`, clamped to the interval `[0, 1]` and
rounded to 2 decimals. (Spec-side definition, to be compared with
`Executor.calcConfidence` from the source.) -/
def confidenceSpec (results : List RetrievalResult) : ℚ :=
  let avgScore := (results.map (·.score)).sum / (results.length : ℚ)
  let sourceFactor := min ((results.length : ℚ) / 3) 1
  Executor.pyRound 2
    (max 0 (min (avgScore * (7/10) + sourceFactor * (3/10)) 1))

/-! ## Retrieval lemmas -/

theorem rankResults_map_score (vs : VectorStore) :
    ∀ (n : ℕ) (l : List (String × ℚ)),
      (rankResults vs n l).map (·.score) = l.map (·.2)
  | _, [] => rfl
  | n, p :: rest => by
    simp [rankResults, rankResults_map_score vs (n + 1) rest]

theorem rankResults_map_rank (vs : VectorStore) :
    ∀ (n : ℕ) (l : List (String × ℚ)),
      (rankResults vs n l).map (·.rank) = List.range' n l.length
  | _, [] => rfl
  | n, p :: rest => by
    simp [rankResults, rankResults_map_rank vs (n + 1) rest, List.range'_succ]

theorem rankResults_length (vs : VectorStore) (n : ℕ)
    (l : List (String × ℚ)) : (rankResults vs n l).length = l.length := by
  have := congrArg List.length (rankResults_map_score vs n l)
  simpa using this

theorem mem_rankResults_score (vs : VectorStore) :
    ∀ (n : ℕ) (l : List (String × ℚ)) (r : RetrievalResult),
      r ∈ rankResults vs n l → ∃ p ∈ l, r.score = p.2
  | _, [], r, h => by simp [rankResults] at h
  | n, p :: rest, r, h => by
    rw [rankResults, List.mem_cons] at h
    rcases h with h | h
    · subst h; exact ⟨p, List.mem_cons_self p rest, rfl⟩
    · obtain ⟨p', hp', hs⟩ := mem_rankResults_score vs (n + 1) rest r h
      exact ⟨p', List.mem_cons_of_mem _ hp', hs⟩

theorem rankResults_pairwise (vs : VectorStore) :
    ∀ (n : ℕ) (l : List (String × ℚ)), l.Pairwise scoreRel →
      (rankResults vs n l).Pairwise (fun a b => b.score ≤ a.score)
  | _, [], _ => List.Pairwise.nil
  | n, p :: rest, h => by
    rw [List.pairwise_cons] at h
    refine List.pairwise_cons.2 ⟨?_, rankResults_pairwise vs (n + 1) rest h.2⟩
    intro r hr
    obtain ⟨p', hp', hs⟩ := mem_rankResults_score vs (n + 1) rest r hr
    simpa [hs] using h.1 p' hp'

theorem mem_scoredCandidates_score (vs : VectorStore) (fns : ExtFns)
    (setOrder : List String → List String) (query : String)
    (sf dtf dff : Option String) (ms : ℚ) (p : String × ℚ)
    (h : p ∈ vs.scoredCandidates fns setOrder query sf dtf dff ms) :
    ms ≤ p.2 := by
  rw [VectorStore.scoredCandidates, List.mem_filterMap] at h
  obtain ⟨id, _, hf⟩ := h
  rcases he : dictGet id vs.embeddings with _ | e
  · rw [he] at hf; exact absurd hf (by simp)
  · rw [he] at hf
    by_cases hc : ms ≤ cosineSim fns (vs.embedder.embed fns query) e
    · simp only [hc, if_pos] at hf
      cases hf; exact hc
    · simp [hc] at hf

/-- C3: every `VectorStore.retrieve` output has all scores at least
`min_score`, is sorted by non-increasing score, has length at most `top_k`,
and carries consecutive 1-based ranks `1..n`. -/
theorem C3_retrieve_sorted_bounded_ranked (vs : VectorStore) (fns : ExtFns)
    (setOrder : List String → List String) (query : String) (topK : ℕ)
    (sf dtf dff : Option String) (ms : ℚ) :
    (∀ r ∈ vs.retrieve fns setOrder query topK sf dtf dff ms, ms ≤ r.score) ∧
    (vs.retrieve fns setOrder query topK sf dtf dff ms).Pairwise
      (fun a b => b.score ≤ a.score) ∧
    (vs.retrieve fns setOrder query topK sf dtf dff ms).length ≤ topK ∧
    (vs.retrieve fns setOrder query topK sf dtf dff ms).map (·.rank)
      = List.range' 1
          (vs.retrieve fns setOrder query topK sf dtf dff ms).length := by
  set scored := vs.scoredCandidates fns setOrder query sf dtf dff ms with hsc
  have hre : vs.retrieve fns setOrder query topK sf dtf dff ms
      = rankResults vs 1 ((List.insertionSort scoreRel scored).take topK) :=
    rfl
  refine ⟨?_, ?_, ?_, ?_⟩
  · intro r hr
    rw [hre] at hr
    obtain ⟨p, hp, hs⟩ := mem_rankResults_score vs 1 _ r hr
    have hp' : p ∈ List.insertionSort scoreRel scored :=
      List.mem_of_mem_take hp
    have hp'' : p ∈ scored := (List.mem_insertionSort scoreRel).1 hp'
    rw [hs]
    exact mem_scoredCandidates_score vs fns setOrder query sf dtf dff ms p hp''
  · rw [hre]
    refine rankResults_pairwise vs 1 _ ?_
    exact (List.sorted_insertionSort scoreRel scored).sublist
      (List.take_sublist _ _)
  · rw [hre, rankResults_length]
    simp
  · rw [hre, rankResults_map_rank, rankResults_length]

/-! ## C1: insufficient-context short-circuit -/

/-- Witness for C3 at a concrete store: the single returned result's score
meets the `min_score` bound. -/
theorem C3_witness :
    (0 : ℚ) ≤ ({ chunk := testChunk "c1" "alpha" "s", score := 0, rank := 1 }
      : RetrievalResult).score :=
  (C3_retrieve_sorted_bounded_ranked singleStore testFns (fun l => l) "q" 5
      none none none 0).1
    { chunk := testChunk "c1" "alpha" "s", score := 0, rank := 1 }
    (by decide)

/-- C1: whenever the vector store returns no results for the resolved
filters, `RAGExecutor.execute` returns the fixed insufficient-context
response (fixed answer text, no citations, confidence 0, no retrieval
results, no LLM response) and leaves the inference-manager state untouched
(no `generate` call is made). -/
theorem C1_execute_insufficient_context (vs : VectorStore) (fns : ExtFns)
    (setOrder : List String → List String) (co : Manager.CallOutcome)
    (query : String) (rd : RoutingDecision)
    (subject docType difficulty : Option String) (lst : LLMManagerState)
    (h : vs.retrieve fns setOrder query 5 (Executor.resolveSubject subject rd)
        docType difficulty (3/10) = []) :
    Executor.execute vs fns setOrder co query rd subject docType difficulty
        lst
      = (lst, .ok (Executor.insufficientContextResponse query rd)) ∧
    (Executor.insufficientContextResponse query rd).answer
      = Executor.insufficientAnswer ∧
    (Executor.insufficientContextResponse query rd).citations = [] ∧
    (Executor.insufficientContextResponse query rd).confidence = 0 ∧
    (Executor.insufficientContextResponse query rd).retrieval_results = [] ∧
    (Executor.insufficientContextResponse query rd).llm_response = none := by
  refine ⟨?_, rfl, rfl, rfl, rfl, rfl⟩
  rw [Executor.execute, h]
  rfl

/-- Witness for C1 at a concrete empty store: the hypothesis holds by
computation and the short-circuit fires. -/
theorem C1_witness :
    Executor.execute (VectorStore.init 2) testFns (fun l => l)
        (fun _ _ _ _ => .error "network down") "what is a stack" testDecision
        none none none (Manager.initProviders none none none)
      = (Manager.initProviders none none none,
         .ok (Executor.insufficientContextResponse "what is a stack"
            testDecision)) :=
  (C1_execute_insufficient_context (VectorStore.init 2) testFns (fun l => l)
    (fun _ _ _ _ => .error "network down") "what is a stack" testDecision
    none none none (Manager.initProviders none none none) rfl).1

/-! ## C4: tie-break order -/

/-- C4 counterexample: the candidate set reaches the scoring loop through
`list(set(...))`, whose enumeration order is arbitrary; under the (legal)
enumeration that reverses insertion order, the two equal-scored chunks come
back as `c2` before `c1`, violating insertion-order tie-breaking. The
enumeration used is a permutation of the filtered candidate set, as any
Python set iteration is. -/
theorem C4_counterexample :
    tieStore.chunks.map (·.1) = ["c1", "c2"] ∧
    List.reverse (tieStore.filteredCandidates none none none) = ["c2", "c1"] ∧
    (tieStore.retrieve testFns List.reverse "q" 5 none none none 0).map
        (fun r => (r.chunk.chunk_id, r.score))
      = [("c2", 0), ("c1", 0)] ∧
    (tieStore.retrieve testFns List.reverse "q" 5 none none none 0).map
        (·.chunk.chunk_id)
      ≠ tieStore.chunks.map (·.1) := by
  exact ⟨rfl, rfl, rfl, by decide⟩

/-- C4 amended: the sort itself is stable, but only with respect to the
candidate enumeration order produced by the set conversion, not with
respect to store insertion order: if `a` appears before `b` among the
scored candidates and their scores tie, `a` stays before `b` after
sorting, and `retrieve` is exactly rank-assignment over the first `top_k`
of that stable sort. -/
theorem C4_stable_wrt_candidate_order (vs : VectorStore) (fns : ExtFns)
    (setOrder : List String → List String) (query : String) (topK : ℕ)
    (sf dtf dff : Option String) (ms : ℚ) (a b : String × ℚ)
    (hab : a.2 = b.2)
    (h : [a, b].Sublist (vs.scoredCandidates fns setOrder query sf dtf dff ms)) :
    [a, b].Sublist (List.insertionSort scoreRel
      (vs.scoredCandidates fns setOrder query sf dtf dff ms)) ∧
    vs.retrieve fns setOrder query topK sf dtf dff ms
      = rankResults vs 1 ((List.insertionSort scoreRel
          (vs.scoredCandidates fns setOrder query sf dtf dff ms)).take topK) := by
  constructor
  · exact List.pair_sublist_insertionSort (le_of_eq hab.symm) h
  · rfl

/-- Witness for C4's amended theorem at the concrete tied store with the
identity enumeration: `c1` stays before `c2`. -/
theorem C4_witness :
    [(("c1" : String), (0 : ℚ)), ("c2", 0)].Sublist
      (List.insertionSort scoreRel
        (tieStore.scoredCandidates testFns (fun l => l) "q" none none none 0)) :=
  (C4_stable_wrt_candidate_order tieStore testFns (fun l => l) "q" 5
    none none none 0 ("c1", 0) ("c2", 0) rfl (by decide)).1

/-! ## C6: malformed filter tokens -/

/-- C6 counterexample: at the `VectorStore.retrieve` level an unknown
`doc_type` token does **not** behave as an absent filter: with one indexed
chunk, the token `"bogus"` (not a member of the enumeration) yields an
empty result list, while the same call without the filter returns the
chunk. -/
theorem C6_counterexample :
    (∀ dt : DocumentType, dt.val ≠ "bogus") ∧
    singleStore.retrieve testFns (fun l => l) "q" 5 none (some "bogus") none 0
      = [] ∧
    (singleStore.retrieve testFns (fun l => l) "q" 5 none none none 0).map
        (·.chunk.chunk_id) = ["c1"] := by
  refine ⟨fun dt => by cases dt <;> decide, rfl, rfl⟩

theorem dictGet_mem {κ α : Type} [DecidableEq κ] {k : κ} {v : α} :
    ∀ {d : List (κ × α)}, dictGet k d = some v → (k, v) ∈ d
  | [], h => by simp [dictGet] at h
  | (k', v') :: rest, h => by
    rw [dictGet] at h
    by_cases hk : k' = k
    · rw [if_pos hk] at h
      cases h
      simp [hk]
    · rw [if_neg hk] at h
      exact List.mem_cons_of_mem _ (dictGet_mem h)

theorem pyTruthy_of_ne {s : String} (h : s ≠ "") :
    pyTruthy (some s) = true := by
  have he : s.isEmpty = false := by
    rw [Bool.eq_false_iff]
    intro hemp
    exact h ((String.isEmpty_iff s).1 hemp)
  simp [pyTruthy, he]

/-- C6 amended, part 1: the graceful treatment of malformed tokens lives in
the API route layer: a token that is not a member value parses to `None`
(no filter) before `retrieve` is ever called. -/
theorem C6_route_layer_neutralizes :
    (∀ s : String, (∀ dt : DocumentType, dt.val ≠ s) →
      Routes.parseDocType (some s) = none) ∧
    (∀ s : String, (∀ d : Difficulty, d.val ≠ s) →
      Routes.parseDifficulty (some s) = none) ∧
    (∀ (vs : VectorStore) (fns : ExtFns)
        (so : List String → List String) (q : String) (k : ℕ)
        (sf dff : Option String) (ms : ℚ) (tok : String), tok ≠ "" →
      dictGet tok vs.by_doc_type = none → so [] = [] →
      vs.retrieve fns so q k sf (some tok) dff ms = []) ∧
    (∀ (vs : VectorStore) (fns : ExtFns)
        (so : List String → List String) (q : String) (k : ℕ)
        (sf dtf : Option String) (ms : ℚ) (tok : String), tok ≠ "" →
      (∀ kv ∈ vs.chunks, kv.2.difficulty.val ≠ tok) → so [] = [] →
      vs.retrieve fns so q k sf dtf (some tok) ms = []) ∧
    (∀ (vs : VectorStore) (fns : ExtFns)
        (so : List String → List String) (q : String) (k : ℕ)
        (dtf dff : Option String) (ms : ℚ),
      vs.retrieve fns so q k (some "") dtf dff ms
        = vs.retrieve fns so q k none dtf dff ms) := by
  refine ⟨?_, ?_, ?_, ?_, ?_⟩
  · intro s hs
    by_cases hp : pyTruthy (some s) = true
    · rw [Routes.parseDocType, if_pos hp, Routes.docTypeFromValue,
        List.find?_eq_none]
      intro dt _
      simpa using hs dt
    · rw [Routes.parseDocType, if_neg (by simpa using hp)]
  · intro s hs
    by_cases hp : pyTruthy (some s) = true
    · rw [Routes.parseDifficulty, if_pos hp, Routes.difficultyFromValue,
        List.find?_eq_none]
      intro d _
      simpa using hs d
    · rw [Routes.parseDifficulty, if_neg (by simpa using hp)]
  · intro vs fns so q k sf dff ms tok htok hnone hso
    have hfc : vs.filteredCandidates sf (some tok) dff = [] := by
      simp [VectorStore.filteredCandidates, pyTruthy_of_ne htok, hnone]
    rw [VectorStore.retrieve, VectorStore.scoredCandidates, hfc, hso]
    simp [rankResults]
  · intro vs fns so q k sf dtf ms tok htok hall hso
    have hfc : vs.filteredCandidates sf dtf (some tok) = [] := by
      simp only [VectorStore.filteredCandidates, pyTruthy_of_ne htok,
        if_true, List.filter_eq_nil_iff]
      intro id _
      rcases hg : dictGet id vs.chunks with _ | c
      · simp [hg]
      · simp [hg, hall (id, c) (dictGet_mem hg)]
    rw [VectorStore.retrieve, VectorStore.scoredCandidates, hfc, hso]
    simp [rankResults]
  · intro vs fns so q k dtf dff ms
    rfl

/-- Witness for C6's amended theorem at concrete inputs. -/
theorem C6_witness :
    Routes.parseDocType (some "bogus") = none ∧
    Routes.parseDifficulty (some "bogus") = none ∧
    singleStore.retrieve testFns (fun l => l) "q" 5 none (some "weird") none 0
      = [] ∧
    singleStore.retrieve testFns (fun l => l) "q" 5 none none (some "weird") 0
      = [] ∧
    singleStore.retrieve testFns (fun l => l) "q" 5 (some "") none none 0
      = singleStore.retrieve testFns (fun l => l) "q" 5 none none none 0 :=
  ⟨C6_route_layer_neutralizes.1 "bogus" (fun dt => by cases dt <;> decide),
   C6_route_layer_neutralizes.2.1 "bogus" (fun d => by cases d <;> decide),
   C6_route_layer_neutralizes.2.2.1 singleStore testFns (fun l => l) "q" 5
     none none 0 "weird" (by decide) (by decide) rfl,
   C6_route_layer_neutralizes.2.2.2.1 singleStore testFns (fun l => l) "q" 5
     none none 0 "weird" (by decide) (by decide) rfl,
   C6_route_layer_neutralizes.2.2.2.2 singleStore testFns (fun l => l) "q" 5
     none none 0⟩

/-! ## C5: embeddings after a refit -/

theorem dictGet_dictSet_self {κ α : Type} [DecidableEq κ] (k : κ) (v : α) :
    ∀ d : List (κ × α), dictGet k (dictSet k v d) = some v
  | [] => by simp [dictGet, dictSet]
  | (k', v') :: rest => by
    by_cases hk : k' = k
    · simp [dictGet, dictSet, hk]
    · simp [dictGet, dictSet, hk, dictGet_dictSet_self k v rest]

theorem dictGet_dictSet_ne {κ α : Type} [DecidableEq κ] {k k' : κ} (v : α)
    (h : k' ≠ k) :
    ∀ d : List (κ × α), dictGet k (dictSet k' v d) = dictGet k d
  | [] => by simp [dictGet, dictSet, h]
  | (k'', v'') :: rest => by
    by_cases hk : k'' = k'
    · subst hk
      simp [dictGet, dictSet, h]
    · simp only [dictSet, if_neg hk, dictGet]
      by_cases hk2 : k'' = k
      · simp [hk2]
      · simp [hk2, dictGet_dictSet_ne v h rest]

theorem addChunksFold_embedder (fns : ExtFns) :
    ∀ (l : List DocumentChunk) (vs : VectorStore),
      (l.foldl (addChunkStep fns) vs).embedder = vs.embedder
  | [], _ => rfl
  | c :: rest, vs => by
    rw [List.foldl_cons, addChunksFold_embedder fns rest]
    rfl

theorem addChunksFold_embeddings_notmem (fns : ExtFns) (id : String) :
    ∀ (l : List DocumentChunk) (vs : VectorStore),
      (∀ c ∈ l, c.chunk_id ≠ id) →
      dictGet id (l.foldl (addChunkStep fns) vs).embeddings
        = dictGet id vs.embeddings
  | [], _, _ => rfl
  | c :: rest, vs, h => by
    rw [List.foldl_cons,
      addChunksFold_embeddings_notmem fns id rest _
        (fun c' hc' => h c' (List.mem_cons_of_mem _ hc'))]
    exact dictGet_dictSet_ne _ (h c (List.mem_cons_self c rest)) _

/-- C5 amended: a refit affects only the embeddings computed afterwards.
After `add_chunks`: (1) the embedder is refit exactly when the batch
exceeds 10 chunks; (2) embeddings of chunks not in the batch are left
untouched (so they are *not* recomputed under the refitted vocabulary);
(3) each batch chunk's stored embedding is the post-refit embedder's
embedding of its content (last write wins for duplicated ids). -/
theorem C5_refit_leaves_old_embeddings_stale (vs : VectorStore)
    (fns : ExtFns) (chunks : List DocumentChunk) :
    (vs.add_chunks fns chunks).embedder = embAfter vs fns chunks ∧
    (∀ id : String, (∀ c ∈ chunks, c.chunk_id ≠ id) →
      dictGet id (vs.add_chunks fns chunks).embeddings
        = dictGet id vs.embeddings) ∧
    (∀ (l1 : List DocumentChunk) (c : DocumentChunk) (l2 : List DocumentChunk),
      chunks = l1 ++ c :: l2 → (∀ c' ∈ l2, c'.chunk_id ≠ c.chunk_id) →
      dictGet c.chunk_id (vs.add_chunks fns chunks).embeddings
        = some ((embAfter vs fns chunks).embed fns c.content)) := by
  rw [VectorStore.add_chunks]
  set vs1 := if chunks.length > 10 then
      { vs with embedder := vs.embedder.fit fns (chunks.map (·.content)) }
    else vs with hvs1
  have hemb1 : vs1.embedder = embAfter vs fns chunks := by
    rw [hvs1, embAfter]
    split <;> rfl
  have hembs1 : vs1.embeddings = vs.embeddings := by
    rw [hvs1]
    split <;> rfl
  refine ⟨?_, ?_, ?_⟩
  · rw [addChunksFold_embedder, hemb1]
  · intro id h
    rw [addChunksFold_embeddings_notmem fns id chunks vs1 h, hembs1]
  · intro l1 c l2 hsplit h2
    subst hsplit
    rw [List.foldl_append, List.foldl_cons]
    rw [addChunksFold_embeddings_notmem fns c.chunk_id l2 _ h2]
    have : (addChunkStep fns (l1.foldl (addChunkStep fns) vs1) c).embeddings
        = dictSet c.chunk_id
            (((l1.foldl (addChunkStep fns) vs1).embedder).embed fns c.content)
            ((l1.foldl (addChunkStep fns) vs1).embeddings) := rfl
    rw [this, addChunksFold_embedder, hemb1, dictGet_dictSet_self]

/-- C5 counterexample: after the refitting `add_chunks` call, the stored
embedding of the previously indexed chunk `"cz"` is its old (hash-based)
embedding, not the refitted embedder's embedding of its content — old
embeddings are never recomputed. (The stored vector is the unnormalised
one-hot `[1, 0]`, the refitted embedder maps `"zzz"` — out of vocabulary —
to the zero vector; this divergence also holds for the real `np.log` and
square root, since it only needs `sqrt 1 = 1` and `sqrt 0 = 0`.) -/
theorem C5_counterexample :
    bigBatch.length = 11 ∧
    staleStore.embedder.is_fitted = true ∧
    dictGet "cz" staleStore.embeddings
      ≠ some (staleStore.embedder.embed testFns "zzz") := by
  refine ⟨rfl, rfl, ?_⟩
  have h1 : dictGet "cz" staleStore.embeddings = some [(0 : ℚ) + 1, 0] := rfl
  have h2 : staleStore.embedder.embed testFns "zzz" = [0, 0] := rfl
  rw [h1, h2]
  simp

/-! ## C7: re-ingestion idempotence -/

/-- Witness for C5's amended theorem: the old chunk's stored embedding is
untouched by the refitting batch, and a freshly added chunk's embedding is
computed with the current embedder. -/
theorem C5_witness :
    dictGet "cz" (preStore.add_chunks testFns bigBatch).embeddings
      = dictGet "cz" preStore.embeddings ∧
    dictGet "cz" ((VectorStore.init 2).add_chunks testFns
        [testChunk "cz" "zzz" "s"]).embeddings
      = some ((embAfter (VectorStore.init 2) testFns
          [testChunk "cz" "zzz" "s"]).embed testFns "zzz") :=
  ⟨(C5_refit_leaves_old_embeddings_stale preStore testFns bigBatch).2.1 "cz"
      (by decide),
   (C5_refit_leaves_old_embeddings_stale (VectorStore.init 2) testFns
      [testChunk "cz" "zzz" "s"]).2.2 [] (testChunk "cz" "zzz" "s") [] rfl
      (by simp)⟩

theorem setTs_chunk_id (now : String) (c : DocumentChunk) :
    (setTs now c).chunk_id = c.chunk_id := rfl

theorem createChunk_setTs (fns : ExtFns) (content f : String)
    (dt : DocumentType) (s : String) (pn i : ℕ) (now now' : String) :
    Ingestion.createChunk fns content f dt s pn i now
      = setTs now (Ingestion.createChunk fns content f dt s pn i now') := rfl

theorem emitWindows_setTs (fns : ExtFns) (f : String) (dt : DocumentType)
    (s : String) (pn : ℕ) (now now' : String) :
    ∀ (wss : List (List String)) (idx : ℕ),
      Ingestion.emitWindows fns f dt s pn now wss idx
        = ((Ingestion.emitWindows fns f dt s pn now' wss idx).1.map
            (setTs now),
           (Ingestion.emitWindows fns f dt s pn now' wss idx).2)
  | [], _ => rfl
  | ws :: rest, idx => by
    have hcc : ∀ (content : String) (i : ℕ),
        Ingestion.createChunk fns content f dt s pn i now
          = setTs now (Ingestion.createChunk fns content f dt s pn i now') :=
      fun _ _ => rfl
    simp only [Ingestion.emitWindows,
      emitWindows_setTs fns f dt s pn now now' rest (idx + 1), List.map_cons,
      hcc]

theorem chunkPage_setTs (fns : ExtFns) (cs ov : ℕ) (f : String)
    (dt : DocumentType) (s : String) (pn : ℕ) (now now' : String) :
    ∀ (paras cur : List String) (wc idx : ℕ),
      Ingestion.chunkPage fns cs ov f dt s pn now paras cur wc idx
        = ((Ingestion.chunkPage fns cs ov f dt s pn now' paras cur wc idx).1.map
            (setTs now),
           (Ingestion.chunkPage fns cs ov f dt s pn now' paras cur wc idx).2)
  | [], cur, wc, idx => by
    have hcc : ∀ (content : String) (i : ℕ),
        Ingestion.createChunk fns content f dt s pn i now
          = setTs now (Ingestion.createChunk fns content f dt s pn i now') :=
      fun _ _ => rfl
    simp only [Ingestion.chunkPage]
    split
    · simp only [List.map_cons, List.map_nil, hcc]
    · rfl
  | para :: rest, cur, wc, idx => by
    have hcc : ∀ (content : String) (i : ℕ),
        Ingestion.createChunk fns content f dt s pn i now
          = setTs now (Ingestion.createChunk fns content f dt s pn i now') :=
      fun _ _ => rfl
    have hw := emitWindows_setTs fns f dt s pn now now'
    simp only [Ingestion.chunkPage]
    split
    · exact chunkPage_setTs fns cs ov f dt s pn now now' rest
        (cur ++ [para]) _ idx
    · split
      · -- oversized paragraph: flush, emit windows, recurse on the rest
        have hr := chunkPage_setTs fns cs ov f dt s pn now now' rest [] 0
        split
        · simp only [hw, hr, List.map_append, List.map_cons, List.map_nil,
            hcc]
        · simp only [hw, hr, List.map_append, List.map_nil]
      · have hr := chunkPage_setTs fns cs ov f dt s pn now now' rest [para]
            (pyWords para).length
        split
        · simp only [hr, List.map_append, List.map_cons, List.map_nil, hcc]
        · simp only [hr, List.map_append, List.map_nil]

theorem createSemanticChunks_setTs (fns : ExtFns) (cs ov : ℕ) (f : String)
    (dt : DocumentType) (s : String) (now now' : String) :
    ∀ (pages : List String) (pn idx : ℕ),
      Ingestion.createSemanticChunks fns cs ov f dt s now pages pn idx
        = (Ingestion.createSemanticChunks fns cs ov f dt s now' pages pn
            idx).map (setTs now)
  | [], _, _ => rfl
  | pg :: rest, pn, idx => by
    simp only [Ingestion.createSemanticChunks,
      chunkPage_setTs fns cs ov f dt s pn now now' (Ingestion.splitParas pg)
        [] 0 idx,
      List.map_append]
    exact congrArg _ (createSemanticChunks_setTs fns cs ov f dt s now now'
      rest (pn + 1) _)

/-- C7: re-processing byte-identical text with the same filename is
idempotent up to timestamps: the `doc_id` and the position-wise
`chunk_id`s agree across runs; moreover `chunk_id` depends only on the
filename, the first 100 characters of the chunk content and the chunk
index, and `doc_id` only on the content hash (not the filename). -/
theorem C7_reingestion_idempotent (fns : ExtFns) (cs ov : ℕ)
    (text filename : String) (hint : Option String) (now now' : String)
    (el el' : ℚ) :
    (Ingestion.processText fns cs ov text filename hint now el).doc_id
      = (Ingestion.processText fns cs ov text filename hint now' el').doc_id ∧
    (Ingestion.processText fns cs ov text filename hint now el).chunks.map
        (·.chunk_id)
      = (Ingestion.processText fns cs ov text filename hint now'
          el').chunks.map (·.chunk_id) ∧
    (∀ (content content' f2 : String) (dt dt' : DocumentType)
        (s2 s2' : String) (pn pn' i : ℕ) (n n' : String),
      content.take 100 = content'.take 100 →
      (Ingestion.createChunk fns content f2 dt s2 pn i n).chunk_id
        = (Ingestion.createChunk fns content' f2 dt' s2' pn' i n').chunk_id) ∧
    (∀ f1 f2 content : String,
      Ingestion.generateDocId fns f1 content
        = Ingestion.generateDocId fns f2 content) := by
  refine ⟨rfl, ?_, ?_, fun f1 f2 content => rfl⟩
  · show (Ingestion.createSemanticChunks fns cs ov filename _ _ now
        [text] 1 0).map (·.chunk_id)
      = (Ingestion.createSemanticChunks fns cs ov filename _ _ now'
        [text] 1 0).map (·.chunk_id)
    rw [createSemanticChunks_setTs fns cs ov filename _ _ now now'
      [text] 1 0, List.map_map]
    rfl
  · intro content content' f2 dt dt' s2 s2' pn pn' i n n' h
    show (fns.md5hex (f2 ++ content.take 100)).take 12 ++ "_" ++ toString i
      = (fns.md5hex (f2 ++ content'.take 100)).take 12 ++ "_" ++ toString i
    rw [h]

set_option maxRecDepth 4000 in
/-- Witness for C7 at concrete inputs: two contents agreeing on their
first 100 characters (and differing afterwards) get the same `chunk_id`. -/
theorem C7_witness :
    (Ingestion.createChunk testFns
        ((List.replicate 100 'a').asString ++ "x") "f.txt" .NOTES "s" 1 0
        "t1").chunk_id
      = (Ingestion.createChunk testFns
          ((List.replicate 100 'a').asString ++ "y") "f.txt" .TEXTBOOK "s2" 2 0
          "t2").chunk_id :=
  (C7_reingestion_idempotent testFns 500 100 "" "" none "" "" 0 0).2.2.1
    ((List.replicate 100 'a').asString ++ "x")
    ((List.replicate 100 'a').asString ++ "y") "f.txt" .NOTES .TEXTBOOK
    "s" "s2" 1 2 0 "t1" "t2" (by decide)

/-! ## C2/C9: fallback loop lemmas -/

namespace Manager

theorem runFlat_models (co : CallOutcome)
    (providers : List (LLMProvider × ProviderConfig)) (prompt : String)
    (sys : Option String) (useCache : Bool) (key : String) (p : LLMProvider)
    (cfg : ProviderConfig) (hcfg : dictGet p providers = some cfg) :
    ∀ (ms : List String) (rest : List (LLMProvider × String))
      (st : LLMManagerState) (lastErr : Option String),
      runFlat co providers prompt sys useCache key
          (ms.map (fun m => (p, m)) ++ rest) st lastErr
        = match tryModels co cfg prompt sys ms st lastErr with
          | (st', some r, _) => (recordSuccess p r useCache key st', .ok r)
          | (st', none, lastErr') =>
            runFlat co providers prompt sys useCache key rest st' lastErr'
  | [], rest, st, lastErr => by simp [tryModels]
  | m :: ms, rest, st, lastErr => by
    rw [List.map_cons, List.cons_append, runFlat]
    simp only [attemptResult, hcfg]
    rcases hcall : callProvider co cfg m prompt sys with e | r
    · simp only [tryModels, hcall]
      exact runFlat_models co providers prompt sys useCache key p cfg hcfg
        ms rest _ (some e)
    · simp [tryModels, hcall]

theorem tryModels_providers (co : CallOutcome) (cfg : ProviderConfig)
    (prompt : String) (sys : Option String) :
    ∀ (ms : List String) (st : LLMManagerState) (lastErr : Option String),
      ((tryModels co cfg prompt sys ms st lastErr).1).providers = st.providers
  | [], _, _ => rfl
  | m :: ms, st, lastErr => by
    rw [tryModels]
    rcases hcall : callProvider co cfg m prompt sys with e | r
    · simp only [hcall]
      exact tryModels_providers co cfg prompt sys ms _ (some e)
    · simp [hcall]

theorem tryProviders_eq_runFlat (co : CallOutcome) (fns : ExtFns)
    (prompt : String) (sys : Option String) (useCache : Bool) (key : String)
    (providers : List (LLMProvider × ProviderConfig)) :
    ∀ (ps : List LLMProvider) (st : LLMManagerState)
      (lastErr : Option String), st.providers = providers →
      tryProviders co fns prompt sys useCache key ps st lastErr
        = runFlat co providers prompt sys useCache key
            (attemptList ps providers) st lastErr
  | [], st, lastErr, hst => by simp [tryProviders, runFlat, attemptList]
  | p :: ps, st, lastErr, hst => by
    rw [tryProviders, attemptList, List.flatMap_cons, hst]
    rcases hcfg : dictGet p providers with _ | cfg
    · simp only [hcfg]
      rw [List.nil_append,
        tryProviders_eq_runFlat co fns prompt sys useCache key providers ps
          st lastErr hst]
      rfl
    · simp only [hcfg]
      rw [runFlat_models co providers prompt sys useCache key p cfg hcfg]
      rcases htm : tryModels co cfg prompt sys
          (cfg.default_model :: cfg.fallback_models) st lastErr with
        ⟨st', r?, lastErr'⟩
      have hst' : st'.providers = providers := by
        have := tryModels_providers co cfg prompt sys
          (cfg.default_model :: cfg.fallback_models) st lastErr
        rw [htm] at this
        rw [← hst, ← this]
      rcases r? with _ | r
      · dsimp only
        rw [tryProviders_eq_runFlat co fns prompt sys useCache key providers
          ps st' lastErr' hst']
        rfl
      · rfl

theorem recordSuccess_counters (p : LLMProvider) (r : LLMResponse)
    (uc : Bool) (key : String) (x : LLMManagerState) :
    (recordSuccess p r uc key x).successful_requests
        = x.successful_requests + 1 ∧
    (recordSuccess p r uc key x).provider_usage
        = dictSet p ((dictGet p x.provider_usage).getD 0 + 1)
            x.provider_usage ∧
    (recordSuccess p r uc key x).fallback_count = x.fallback_count ∧
    (recordSuccess p r uc key x).failed_requests = x.failed_requests := by
  rw [recordSuccess]
  split <;> simp [addToCache]

theorem runFlat_success (co : CallOutcome)
    (providers : List (LLMProvider × ProviderConfig)) (prompt : String)
    (sys : Option String) (useCache : Bool) (key : String)
    (r : LLMResponse) :
    ∀ (pre : List (LLMProvider × String)) (pm : LLMProvider × String)
      (rest : List (LLMProvider × String)) (st : LLMManagerState)
      (le : Option String),
      (∀ a ∈ pre, ∃ e, attemptResult co providers prompt sys a = .error e) →
      attemptResult co providers prompt sys pm = .ok r →
      runFlat co providers prompt sys useCache key (pre ++ pm :: rest) st le
        = (recordSuccess pm.1 r useCache key
            { st with fallback_count := st.fallback_count + pre.length },
           .ok r)
  | [], pm, rest, st, le, _, hok => by
    rw [List.nil_append, runFlat, hok]
    dsimp only
    simp
  | a :: pre, pm, rest, st, le, hpre, hok => by
    obtain ⟨e, he⟩ := hpre a (List.mem_cons_self a pre)
    rw [List.cons_append, runFlat, he]
    dsimp only
    rw [runFlat_success co providers prompt sys useCache key r pre pm rest _
      (some e) (fun a' ha' => hpre a' (List.mem_cons_of_mem _ ha')) hok]
    have : st.fallback_count + 1 + pre.length
        = st.fallback_count + (a :: pre).length := by
      simp [Nat.add_assoc, Nat.add_comm 1]
    simp [this]

theorem runFlat_allFail (co : CallOutcome)
    (providers : List (LLMProvider × ProviderConfig)) (prompt : String)
    (sys : Option String) (useCache : Bool) (key : String) :
    ∀ (L : List (LLMProvider × String)) (st : LLMManagerState)
      (le : Option String),
      (∀ a ∈ L, ∃ e, attemptResult co providers prompt sys a = .error e) →
      runFlat co providers prompt sys useCache key L st le
        = ({ st with
              fallback_count := st.fallback_count + L.length,
              failed_requests := st.failed_requests + 1 },
           .error ("All LLM providers failed. Last error: "
             ++ lastErrStr (lastErrorOf co providers prompt sys L le)))
  | [], st, le, _ => by simp [runFlat, lastErrorOf]
  | a :: L, st, le, h => by
    obtain ⟨e, he⟩ := h a (List.mem_cons_self a L)
    rw [runFlat, he]
    dsimp only
    rw [runFlat_allFail co providers prompt sys useCache key L _ (some e)
      (fun a' ha' => h a' (List.mem_cons_of_mem _ ha'))]
    have harith : st.fallback_count + 1 + L.length
        = st.fallback_count + (a :: L).length := by
      simp [Nat.add_assoc, Nat.add_comm 1]
    have herr : lastErrorOf co providers prompt sys L (some e)
        = lastErrorOf co providers prompt sys (a :: L) le := by
      simp [lastErrorOf, he]
    simp [harith, herr]

theorem generate_eq_runFlat (fns : ExtFns) (co : CallOutcome)
    (st : LLMManagerState) (prompt : String) (sys : Option String)
    (useCache : Bool)
    (hmiss : (useCache && st.cache_enabled) = false
      ∨ dictGet (cacheKey fns prompt sys) st.cache = none) :
    generate fns co st prompt sys useCache
      = runFlat co st.providers prompt sys useCache (cacheKey fns prompt sys)
          (attemptList st.provider_priority st.providers)
          { st with total_requests := st.total_requests + 1 } none := by
  rw [generate]
  have htp := tryProviders_eq_runFlat co fns prompt sys useCache
    (cacheKey fns prompt sys) st.providers st.provider_priority
    { st with total_requests := st.total_requests + 1 } none rfl
  rcases hmiss with hm | hm
  · rw [if_neg (by simp_all)]
    exact htp
  · by_cases hc : (useCache && st.cache_enabled) = true
    · rw [if_pos (by simpa using hc)]
      have hm' : dictGet (cacheKey fns prompt sys)
          ({ st with total_requests := st.total_requests + 1 }
            : LLMManagerState).cache = none := hm
      rw [hm']
      exact htp
    · rw [if_neg (by simpa using hc)]
      exact htp

end Manager

/-- C2: on a cache miss, `LLMManager.generate` walks the (provider, model)
matrix in priority order — default model first, then fallbacks per
provider. It returns the first successful response, bumping
`successful_requests` and that provider's usage by 1 and `fallback_count`
once per failed attempt on the way; it raises only when every pair failed,
carrying the last underlying error in the message. -/
theorem C2_generate_priority_fallback (fns : ExtFns)
    (co : Manager.CallOutcome) (st : LLMManagerState) (prompt : String)
    (sys : Option String) (useCache : Bool)
    (hmiss : (useCache && st.cache_enabled) = false
      ∨ dictGet (Manager.cacheKey fns prompt sys) st.cache = none) :
    (∀ (pre : List (LLMProvider × String)) (pm : LLMProvider × String)
        (rest : List (LLMProvider × String)) (r : LLMResponse),
      Manager.attemptList st.provider_priority st.providers
          = pre ++ pm :: rest →
      (∀ a ∈ pre, ∃ e,
        Manager.attemptResult co st.providers prompt sys a = .error e) →
      Manager.attemptResult co st.providers prompt sys pm = .ok r →
      (Manager.generate fns co st prompt sys useCache).2 = .ok r ∧
      (Manager.generate fns co st prompt sys useCache).1.successful_requests
        = st.successful_requests + 1 ∧
      dictGet pm.1
          (Manager.generate fns co st prompt sys useCache).1.provider_usage
        = some ((dictGet pm.1 st.provider_usage).getD 0 + 1) ∧
      (Manager.generate fns co st prompt sys useCache).1.fallback_count
        = st.fallback_count + pre.length ∧
      (Manager.generate fns co st prompt sys useCache).1.failed_requests
        = st.failed_requests) ∧
    ((∀ a ∈ Manager.attemptList st.provider_priority st.providers, ∃ e,
        Manager.attemptResult co st.providers prompt sys a = .error e) →
      (Manager.generate fns co st prompt sys useCache).2
        = .error ("All LLM providers failed. Last error: "
            ++ Manager.lastErrStr (Manager.lastErrorOf co st.providers prompt
                sys (Manager.attemptList st.provider_priority st.providers)
                none)) ∧
      (Manager.generate fns co st prompt sys useCache).1.failed_requests
        = st.failed_requests + 1 ∧
      (Manager.generate fns co st prompt sys useCache).1.fallback_count
        = st.fallback_count
            + (Manager.attemptList st.provider_priority st.providers).length ∧
      (Manager.generate fns co st prompt sys useCache).1.successful_requests
        = st.successful_requests) := by
  have hgen := Manager.generate_eq_runFlat fns co st prompt sys useCache hmiss
  constructor
  · intro pre pm rest r hL hpre hok
    rw [hgen, hL,
      Manager.runFlat_success co st.providers prompt sys useCache
        (Manager.cacheKey fns prompt sys) r pre pm rest _ none hpre hok]
    obtain ⟨h1, h2, h3, h4⟩ := Manager.recordSuccess_counters pm.1 r useCache
      (Manager.cacheKey fns prompt sys)
      { st with
        total_requests := st.total_requests + 1,
        fallback_count := st.fallback_count + pre.length }
    refine ⟨rfl, by simpa using h1, ?_, by simpa using h3,
      by simpa using h4⟩
    rw [h2]
    exact dictGet_dictSet_self ..
  · intro hall
    rw [hgen,
      Manager.runFlat_allFail co st.providers prompt sys useCache
        (Manager.cacheKey fns prompt sys) _ _ none hall]
    exact ⟨rfl, rfl, rfl, rfl⟩

/-- Witness for C2: with no API keys configured, the attempt list is the
single local pair, which succeeds immediately with the local response and
the counters move as stated. -/
theorem C2_witness :
    (Manager.generate testFns (fun _ _ _ _ => .error "boom")
        (Manager.initProviders none none none) "hi" none false).2
      = .ok (Manager.localResponse "hi" none) ∧
    (Manager.generate testFns (fun _ _ _ _ => .error "boom")
        (Manager.initProviders none none none) "hi" none
        false).1.successful_requests
      = (Manager.initProviders none none none).successful_requests + 1 ∧
    dictGet LLMProvider.LOCAL
        (Manager.generate testFns (fun _ _ _ _ => .error "boom")
          (Manager.initProviders none none none) "hi" none
          false).1.provider_usage
      = some 1 ∧
    (Manager.generate testFns (fun _ _ _ _ => .error "boom")
        (Manager.initProviders none none none) "hi" none
        false).1.fallback_count
      = (Manager.initProviders none none none).fallback_count + 0 := by
  have h := (C2_generate_priority_fallback testFns
    (fun _ _ _ _ => .error "boom") (Manager.initProviders none none none)
    "hi" none false (Or.inl rfl)).1 []
    (LLMProvider.LOCAL, "demo-model") [] (Manager.localResponse "hi" none)
    rfl (by simp) rfl
  exact ⟨h.1, h.2.1, h.2.2.1, by simpa using h.2.2.2.1⟩

/-! ## C9: the local fallback makes failure unreachable -/

theorem getLast?_append_singleton {α : Type} (a : α) (l : List α) :
    (l ++ [a]).getLast? = some a := by
  rw [List.getLast?_append_cons]
  rfl

theorem initProviders_local (groqKey orKey oaKey : Option String) :
    dictGet LLMProvider.LOCAL
        (Manager.initProviders groqKey orKey oaKey).providers
      = some localCfg ∧
    LLMProvider.LOCAL
      ∈ (Manager.initProviders groqKey orKey oaKey).provider_priority ∧
    (Manager.initProviders groqKey orKey oaKey).provider_priority.getLast?
      = some LLMProvider.LOCAL := by
  simp only [Manager.initProviders]
  split_ifs <;>
    exact ⟨dictGet_dictSet_self .., by simp,
      getLast?_append_singleton _ _⟩

theorem runFlat_isOk_of_mem (co : Manager.CallOutcome)
    (providers : List (LLMProvider × ProviderConfig)) (prompt : String)
    (sys : Option String) (useCache : Bool) (key : String)
    (pm : LLMProvider × String) (r : LLMResponse) :
    ∀ (L : List (LLMProvider × String)) (st : LLMManagerState)
      (le : Option String), pm ∈ L →
      Manager.attemptResult co providers prompt sys pm = .ok r →
      ((Manager.runFlat co providers prompt sys useCache key L st le).2).isOk
        = true
  | a :: L, st, le, hmem, hok => by
    rw [Manager.runFlat]
    rcases ha : Manager.attemptResult co providers prompt sys a with e | r'
    · rcases List.mem_cons.1 hmem with hpm | hpm
      · rw [hpm] at hok
        rw [hok] at ha
        exact absurd ha (by simp)
      · exact runFlat_isOk_of_mem co providers prompt sys useCache key pm r
          L _ (some e) hpm hok
    · rfl

theorem tryProviders_isOk (co : Manager.CallOutcome) (fns : ExtFns)
    (prompt : String) (sys : Option String) (useCache : Bool) (key : String)
    (ps : List LLMProvider) (st : LLMManagerState) (le : Option String)
    (p : LLMProvider) (cfg : ProviderConfig) (hp : p ∈ ps)
    (hcfg : dictGet p st.providers = some cfg)
    (hlocal : cfg.provider = .LOCAL) :
    ((Manager.tryProviders co fns prompt sys useCache key ps st le).2).isOk
      = true := by
  rw [Manager.tryProviders_eq_runFlat co fns prompt sys useCache key
    st.providers ps st le rfl]
  refine runFlat_isOk_of_mem co st.providers prompt sys useCache key
    (p, cfg.default_model) (Manager.localResponse prompt sys) _ _ le ?_ ?_
  · rw [Manager.attemptList, List.mem_flatMap]
    refine ⟨p, hp, ?_⟩
    rw [hcfg]
    simp
  · rw [Manager.attemptResult]
    simp only [hcfg]
    rw [Manager.callProvider, if_pos hlocal]

/-- C9: `generate` can never raise: `_init_providers` always appends the
local provider last, and its deterministic local responder always
succeeds, so for any call outcomes of the remote providers (and any
metrics/cache state evolved on top of the initial one), the
all-providers-failed branch is unreachable. -/
theorem C9_generate_never_raises (groqKey orKey oaKey : Option String)
    (fns : ExtFns) (co : Manager.CallOutcome) (prompt : String)
    (sys : Option String) (useCache : Bool) :
    (Manager.initProviders groqKey orKey oaKey).provider_priority.getLast?
      = some LLMProvider.LOCAL ∧
    ∀ st : LLMManagerState,
      st.providers = (Manager.initProviders groqKey orKey oaKey).providers →
      st.provider_priority
        = (Manager.initProviders groqKey orKey oaKey).provider_priority →
      ((Manager.generate fns co st prompt sys useCache).2).isOk = true := by
  obtain ⟨hloc, hmem, hlast⟩ := initProviders_local groqKey orKey oaKey
  refine ⟨hlast, ?_⟩
  intro st hprov hprio
  have hcfg' : dictGet LLMProvider.LOCAL st.providers = some localCfg := by
    rw [hprov]
    exact hloc
  have hp' : LLMProvider.LOCAL ∈ st.provider_priority := by
    rw [hprio]
    exact hmem
  rw [Manager.generate]
  dsimp only
  by_cases hc : (useCache && st.cache_enabled) = true
  · rw [if_pos hc]
    rcases hcache : dictGet (Manager.cacheKey fns prompt sys) st.cache
      with _ | r
    · exact tryProviders_isOk co fns prompt sys useCache
        (Manager.cacheKey fns prompt sys) st.provider_priority _ none
        LLMProvider.LOCAL localCfg hp' hcfg' rfl
    · rfl
  · rw [if_neg hc]
    exact tryProviders_isOk co fns prompt sys useCache
      (Manager.cacheKey fns prompt sys) st.provider_priority _ none
      LLMProvider.LOCAL localCfg hp' hcfg' rfl

/-- Witness for C9: the bare local-only manager answers despite a
constantly failing network. -/
theorem C9_witness :
    ((Manager.generate testFns (fun _ _ _ _ => .error "boom")
        (Manager.initProviders none none none) "explain stacks" none
        true).2).isOk = true :=
  (C9_generate_never_raises none none none testFns
    (fun _ _ _ _ => .error "boom") "explain stacks" none true).2
    (Manager.initProviders none none none) rfl rfl

/-! ## C8: classification priority -/

/-- C8: `_classify_query` checks pattern categories in the fixed order
RAG, algorithmic, reasoning: a RAG-pattern match routes to RAG at 0.85
regardless of later categories; otherwise an algorithmic match routes to
Algorithmic at 0.80; otherwise a reasoning match routes to ReasoningLLM at
0.80, except the problem-solving/comparison intents, which go to Hybrid at
0.75; with no pattern match, an academic indicator word routes to RAG at
0.60, and everything else to ReasoningLLM/general-chat at 0.50. -/
theorem C8_classification_priority (q : String) :
    (∀ i, Router.firstMatch Router.ragPatterns q = some i →
      Router.classifyQuery q = (i, .RAG, 85/100)) ∧
    (Router.firstMatch Router.ragPatterns q = none →
      ∀ i, Router.firstMatch Router.algorithmicPatterns q = some i →
        Router.classifyQuery q = (i, .ALGORITHMIC, 80/100)) ∧
    (Router.firstMatch Router.ragPatterns q = none →
      Router.firstMatch Router.algorithmicPatterns q = none →
      ∀ i, Router.firstMatch Router.reasoningPatterns q = some i →
        ((i ≠ .PROBLEM_SOLVING ∧ i ≠ .COMPARISON_ANALYSIS →
            Router.classifyQuery q = (i, .REASONING_LLM, 80/100)) ∧
         (i = .PROBLEM_SOLVING ∨ i = .COMPARISON_ANALYSIS →
            Router.classifyQuery q = (i, .HYBRID, 75/100)))) ∧
    (Router.firstMatch Router.ragPatterns q = none →
      Router.firstMatch Router.algorithmicPatterns q = none →
      Router.firstMatch Router.reasoningPatterns q = none →
      ((Router.academicIndicators.any (fun ind => pyIn ind q)) = true →
          Router.classifyQuery q = (.CONCEPT_CLARIFICATION, .RAG, 60/100)) ∧
      ((Router.academicIndicators.any (fun ind => pyIn ind q)) = false →
          Router.classifyQuery q
            = (.GENERAL_CHAT, .REASONING_LLM, 50/100))) := by
  refine ⟨?_, ?_, ?_, ?_⟩
  · intro i h
    rw [Router.classifyQuery, h]
  · intro hrag i h
    rw [Router.classifyQuery, hrag, h]
  · intro hrag halg i h
    constructor
    · intro ⟨h1, h2⟩
      rw [Router.classifyQuery, hrag, halg, h]
      dsimp only
      rw [if_neg (by simp [h1, h2])]
    · intro hor
      rw [Router.classifyQuery, hrag, halg, h]
      dsimp only
      rw [if_pos hor]
  · intro hrag halg hreas
    constructor
    · intro hind
      rw [Router.classifyQuery, hrag, halg, hreas]
      dsimp only
      rw [if_pos hind]
    · intro hind
      rw [Router.classifyQuery, hrag, halg, hreas]
      dsimp only
      rw [if_neg (by simp [hind])]

/-- Witness for C8 at concrete queries, one per branch; in particular a
query matching both a RAG pattern (`define`) and an algorithmic pattern
(`schedule ... study`) classifies as RAG. -/
theorem C8_witness :
    Router.classifyQuery "define stacks and schedule my study"
      = (.DEFINITION_LOOKUP, .RAG, 85/100) ∧
    Router.classifyQuery "schedule my exam revision"
      = (.PLAN_GENERATION, .ALGORITHMIC, 80/100) ∧
    Router.classifyQuery "implement a linked list"
      = (.CODE_GENERATION, .REASONING_LLM, 80/100) ∧
    Router.classifyQuery "calculate the mean"
      = (.PROBLEM_SOLVING, .HYBRID, 75/100) ∧
    Router.classifyQuery "i want to understand this"
      = (.CONCEPT_CLARIFICATION, .RAG, 60/100) ∧
    Router.classifyQuery "hello there"
      = (.GENERAL_CHAT, .REASONING_LLM, 50/100) :=
  ⟨(C8_classification_priority "define stacks and schedule my study").1
      .DEFINITION_LOOKUP (by decide),
   (C8_classification_priority "schedule my exam revision").2.1 (by decide)
      .PLAN_GENERATION (by decide),
   ((C8_classification_priority "implement a linked list").2.2.1 (by decide)
      (by decide) .CODE_GENERATION (by decide)).1 (by decide),
   ((C8_classification_priority "calculate the mean").2.2.1 (by decide)
      (by decide) .PROBLEM_SOLVING (by decide)).2 (Or.inl rfl),
   ((C8_classification_priority "i want to understand this").2.2.2
      (by decide) (by decide) (by decide)).1 (by decide),
   ((C8_classification_priority "hello there").2.2.2 (by decide) (by decide)
      (by decide)).2 (by decide)⟩

/-! ## C10: the confidence formula -/

/-- C10 counterexample: the code clamps only from above
(`round(min(confidence, 1.0), 2)`); for a (negative-score) retrieval
result the computed confidence is negative while the spec's `[0, 1]`
clamp would give 0. -/
theorem C10_counterexample :
    Executor.calcConfidence
        [{ chunk := defaultChunk, score := -1, rank := 1 }] none = -(3/5) ∧
    confidenceSpec [{ chunk := defaultChunk, score := -1, rank := 1 }] = 0 ∧
    Executor.calcConfidence
        [{ chunk := defaultChunk, score := -1, rank := 1 }] none
      ≠ confidenceSpec [{ chunk := defaultChunk, score := -1, rank := 1 }] := by
  have h1 : Executor.calcConfidence
      [{ chunk := defaultChunk, score := -1, rank := 1 }] none = -(3/5) := by
    rw [Executor.calcConfidence]
    norm_num [Executor.pyRound, Executor.roundHalfEven]
  have h2 : confidenceSpec
      [{ chunk := defaultChunk, score := -1, rank := 1 }] = 0 := by
    rw [confidenceSpec]
    norm_num [Executor.pyRound, Executor.roundHalfEven]
  refine ⟨h1, h2, ?_⟩
  rw [h1, h2]
  norm_num

/-- C10 amended: for non-empty results with nonnegative scores (as every
result produced under a nonnegative `min_score` is), the code's confidence
equals the spec formula — the missing lower clamp is a no-op there. -/
theorem C10_confidence_formula (results : List RetrievalResult)
    (llm : Option LLMResponse) (hne : results ≠ [])
    (hnn : ∀ r ∈ results, 0 ≤ r.score) :
    Executor.calcConfidence results llm = confidenceSpec results := by
  have hlen : (0 : ℚ) ≤ (results.length : ℚ) := by positivity
  have havg : 0 ≤ (results.map (·.score)).sum / (results.length : ℚ) := by
    refine div_nonneg (List.sum_nonneg ?_) hlen
    intro x hx
    obtain ⟨r, hr, hxr⟩ := List.mem_map.1 hx
    rw [← hxr]
    exact hnn r hr
  have hsf : (0 : ℚ) ≤ min ((results.length : ℚ) / 3) 1 :=
    le_min (by positivity) zero_le_one
  have hconf : 0 ≤ (results.map (·.score)).sum / (results.length : ℚ)
      * (7/10) + min ((results.length : ℚ) / 3) 1 * (3/10) :=
    add_nonneg (mul_nonneg havg (by norm_num))
      (mul_nonneg hsf (by norm_num))
  rw [Executor.calcConfidence, confidenceSpec,
    if_neg (by simpa [List.isEmpty_iff] using hne)]
  rw [max_eq_right (le_min hconf zero_le_one)]

/-- Witness for C10's amended theorem at a concrete singleton result. -/
theorem C10_witness :
    Executor.calcConfidence
        [{ chunk := defaultChunk, score := 1/2, rank := 1 }] none
      = confidenceSpec [{ chunk := defaultChunk, score := 1/2, rank := 1 }] :=
  C10_confidence_formula
    [{ chunk := defaultChunk, score := 1/2, rank := 1 }] none (by simp)
    (by intro r hr; rw [List.mem_singleton.1 hr]; norm_num)

end LearnCopilot
